import Mathlib

/-!
Verification development for the bigcolor color library (lib.rs, color_space.rs,
matrix_utils.rs, parse.rs).

Modelling conventions.
* `u8` channel values are `ℕ` (with the saturating casts of `as u8` made explicit).
* `f32` quantities that only ever undergo rational arithmetic (parsing, HSL/CMYK
  conversions, alpha handling) are modelled exactly as `ℚ`.
* `f32` quantities that flow through transcendental functions (`cbrt`, `powf`,
  `atan2`, `sin`, `cos`, `sqrt`) are modelled as `ℝ`, with those functions as the
  exact real functions; float rounding is not modelled.  `NaN` and infinities do
  not exist in this idealisation (noted where the source checks for them).
* `f32::EPSILON` is the machine epsilon 2⁻²³.
-/

namespace Bigcolor

/-- Machine epsilon of `f32` (`f32::EPSILON` in the source). -/
def f32EPSILON : ℚ := 1 / 2 ^ 23

/-- Rust `f32::round`: round half away from zero, as an integer. -/
def rustRound (x : ℚ) : ℤ :=
  if x < 0 then -⌊-x + 1/2⌋ else ⌊x + 1/2⌋

/-- Rust `expr as u8` applied to a nonnegative-or-small value: truncate toward
zero and saturate into `[0,255]`.  (For negative inputs truncation and flooring
differ, but both saturate to `0`.) -/
def castU8 (x : ℚ) : ℕ :=
  min 255 (Int.toNat ⌊x⌋)

/-- Rust `expr.round() as u8`: round half away from zero, saturate into `[0,255]`. -/
def roundU8 (x : ℚ) : ℕ :=
  min 255 (Int.toNat (rustRound x))

/-- RGB color (`color_space.rs`): `r,g,b : u8`, `a : f32`. -/
structure RGB where
  r : ℕ
  g : ℕ
  b : ℕ
  a : ℚ
  deriving DecidableEq, Repr

/-- HSL color (`color_space.rs`). -/
structure HSL where
  h : ℚ
  s : ℚ
  l : ℚ
  a : ℚ
  deriving DecidableEq, Repr

/-- HSV color (`color_space.rs`). -/
structure HSV where
  h : ℚ
  s : ℚ
  v : ℚ
  a : ℚ
  deriving DecidableEq, Repr

/-- Percentage RGB color (`color_space.rs`); fields hold the rounded percentages. -/
structure PercentageRGB where
  r : ℚ
  g : ℚ
  b : ℚ
  a : ℚ
  deriving DecidableEq, Repr

/-- CMYK color model (`color_space.rs`). -/
structure CMYK where
  c : ℚ
  m : ℚ
  y : ℚ
  k : ℚ
  a : ℚ
  deriving DecidableEq, Repr

/-- `is_one_point_zero` (`color_space.rs`): the source computes
`n.abs() - 1.0 < f32::EPSILON` (note: not `(n - 1.0).abs()`). -/
def is_one_point_zero (n : ℚ) : Bool :=
  decide (|n| - 1 < f32EPSILON)

/-- `is_percentage` (`color_space.rs`): value between 0 and 100. -/
def is_percentage (n : ℚ) : Bool :=
  decide (0 ≤ n ∧ n ≤ 100)

/-- `bound_01` (`color_space.rs`): take input from `[0, n]` and return it as `[0, 1]`. -/
def bound_01 (n mx : ℚ) : ℚ :=
  if is_one_point_zero n then 1
  else
    let percent := is_percentage n
    let value := if percent then n / 100 * mx else n
    max (min value mx) 0 / mx

/-- `bound_alpha` (`color_space.rs`): a valid alpha in `[0,1]`, all invalid values
set to 1.  (The source also maps `NaN` to 1; `NaN` has no `ℚ` counterpart.) -/
def bound_alpha (a : ℚ) : ℚ :=
  if a < 0 ∨ 1 < a then 1 else a

/-- `clamp_01` (`color_space.rs`). -/
def clamp_01 (val : ℚ) : ℚ :=
  max (min val 1) 0

/-- `rgb_to_rgb` (`color_space.rs`). -/
def rgb_to_rgb (r g b : ℕ) : RGB :=
  { r := castU8 (bound_01 (r : ℚ) 255 * 255)
    g := castU8 (bound_01 (g : ℚ) 255 * 255)
    b := castU8 (bound_01 (b : ℚ) 255 * 255)
    a := 1 }

/-- `rgb_to_hsl` (`color_space.rs`): standard max/min/delta algorithm over the
`bound_01`-normalised channels. -/
def rgb_to_hsl (r g b : ℕ) : HSL :=
  let r : ℚ := bound_01 (r : ℚ) 255
  let g : ℚ := bound_01 (g : ℚ) 255
  let b : ℚ := bound_01 (b : ℚ) 255
  let mx := max (max r g) b
  let mn := min (min r g) b
  let l := (mx + mn) / 2
  if mx = mn then
    { h := 0, s := 0, l := l, a := 1 }
  else
    let d := mx - mn
    let s := if l > 1/2 then d / (2 - mx - mn) else d / (mx + mn)
    let h :=
      if mx = r then (g - b) / d + (if g < b then 6 else 0)
      else if mx = g then (b - r) / d + 2
      else if mx = b then (r - g) / d + 4
      else 0
    { h := h / 6, s := s, l := l, a := 1 }

/-- The `hue_to_rgb` closure inside `hsl_to_rgb` (`color_space.rs`). -/
def hue_to_rgb (p q t : ℚ) : ℚ :=
  let t := if t < 0 then t + 1 else t
  let t := if t > 1 then t - 1 else t
  if t < 1/6 then p + (q - p) * 6 * t
  else if t < 1/2 then q
  else if t < 2/3 then p + (q - p) * (2/3 - t) * 6
  else p

/-- `hsl_to_rgb` (`color_space.rs`): accepts components in `[0,1]` or conventional
ranges via the `value > 1.0` heuristic; truncating `as u8` casts. -/
def hsl_to_rgb (h s l : ℚ) : RGB :=
  let h := if h > 1 then h / 360 else h
  let s := if s > 1 then s / 100 else s
  let l := if l > 1 then l / 100 else l
  if s = 0 then
    let rgb_val := castU8 (l * 255)
    { r := rgb_val, g := rgb_val, b := rgb_val, a := 1 }
  else
    let q := if l < 1/2 then l * (1 + s) else l + s - l * s
    let p := 2 * l - q
    { r := castU8 (hue_to_rgb p q (h + 1/3) * 255)
      g := castU8 (hue_to_rgb p q h * 255)
      b := castU8 (hue_to_rgb p q (h - 1/3) * 255)
      a := 1 }

/-- `hsv_to_rgb` (`color_space.rs`): sector algorithm, rounding casts.
Rust `i % 6` on `i32` is the truncated remainder `Int.tmod`. -/
def hsv_to_rgb (h s v : ℚ) : RGB :=
  let h := if h > 1 then h / 360 else h
  let s := if s > 1 then s / 100 else s
  let v := if v > 1 then v / 100 else v
  if s < 1/100000 then
    let v8 := roundU8 (v * 255)
    { r := v8, g := v8, b := v8, a := 1 }
  else
    let h := h * 6
    let i : ℤ := ⌊h⌋
    let f := h - (i : ℚ)
    let p := v * (1 - s)
    let q := v * (1 - f * s)
    let t := v * (1 - (1 - f) * s)
    let rgb :=
      if Int.tmod i 6 = 0 then (v, t, p)
      else if Int.tmod i 6 = 1 then (q, v, p)
      else if Int.tmod i 6 = 2 then (p, v, t)
      else if Int.tmod i 6 = 3 then (p, q, v)
      else if Int.tmod i 6 = 4 then (t, p, v)
      else (v, p, q)
    { r := roundU8 (rgb.1 * 255)
      g := roundU8 (rgb.2.1 * 255)
      b := roundU8 (rgb.2.2 * 255)
      a := 1 }

/-- `rgb_to_cmyk` (`color_space.rs`): subtractive model with the `k == 1`
(pure black) guard avoiding the division by zero. -/
def rgb_to_cmyk (r g b : ℕ) (a : ℚ) : CMYK :=
  let rN : ℚ := (r : ℚ) / 255
  let gN : ℚ := (g : ℚ) / 255
  let bN : ℚ := (b : ℚ) / 255
  let k := 1 - max (max rN gN) bN
  let c := if k = 1 then 0 else (1 - rN - k) / (1 - k)
  let m := if k = 1 then 0 else (1 - gN - k) / (1 - k)
  let y := if k = 1 then 0 else (1 - bN - k) / (1 - k)
  { c := c * 100, m := m * 100, y := y * 100, k := k * 100, a := a }

/-- `cmyk_to_rgb` (`color_space.rs`). -/
def cmyk_to_rgb (cmyk : CMYK) : ℕ × ℕ × ℕ × ℚ :=
  let c := cmyk.c / 100
  let m := cmyk.m / 100
  let y := cmyk.y / 100
  let k := cmyk.k / 100
  (roundU8 (255 * (1 - c) * (1 - k)),
   roundU8 (255 * (1 - m) * (1 - k)),
   roundU8 (255 * (1 - y) * (1 - k)),
   cmyk.a)

/-! ### Matrix utilities (`matrix_utils.rs`), real-valued -/

/-- `Vector3 = [f32; 3]` (`matrix_utils.rs`). -/
structure Vector3 where
  x : ℝ
  y : ℝ
  z : ℝ

/-- `Matrix3x3 = [[f32; 3]; 3]` (`matrix_utils.rs`), rows `r0, r1, r2`. -/
structure Matrix3x3 where
  r0 : Vector3
  r1 : Vector3
  r2 : Vector3

/-- `multiply_v3_m3x3` (`matrix_utils.rs`): `out[i] = Σ_j v[j] * m[i][j]`. -/
def multiply_v3_m3x3 (v : Vector3) (m : Matrix3x3) : Vector3 :=
  { x := v.x * m.r0.x + v.y * m.r0.y + v.z * m.r0.z
    y := v.x * m.r1.x + v.y * m.r1.y + v.z * m.r1.z
    z := v.x * m.r2.x + v.y * m.r2.y + v.z * m.r2.z }

/-- `XYZ_TO_LMS_M` (`matrix_utils.rs`). -/
def XYZ_TO_LMS_M : Matrix3x3 :=
  { r0 := { x := 0.8190224379967030, y := 0.3619062600528904, z := -0.1288737815209879 }
    r1 := { x := 0.0329836539323885, y := 0.9292868615863434, z := 0.0361446663506424 }
    r2 := { x := 0.0481771893596242, y := 0.2642395317527308, z := 0.6335478284694309 } }

/-- `LMS_TO_XYZ_M` (`matrix_utils.rs`). -/
def LMS_TO_XYZ_M : Matrix3x3 :=
  { r0 := { x := 1.2268798758459243, y := -0.5578149944602171, z := 0.2813910456659647 }
    r1 := { x := -0.0405757452148008, y := 1.1122868032803170, z := -0.0717110580655164 }
    r2 := { x := -0.0763729366746601, y := -0.4214933324022432, z := 1.5869240198367816 } }

/-- `LMS_TO_LAB_M` (`matrix_utils.rs`). -/
def LMS_TO_LAB_M : Matrix3x3 :=
  { r0 := { x := 0.2104542683093140, y := 0.7936177747023054, z := -0.0040720430116193 }
    r1 := { x := 1.9779985324311684, y := -2.4285922420485799, z := 0.4505937096174110 }
    r2 := { x := 0.0259040424655478, y := 0.7827717124575296, z := -0.8086757549230774 } }

/-- `LAB_TO_LMS_M` (`matrix_utils.rs`). -/
def LAB_TO_LMS_M : Matrix3x3 :=
  { r0 := { x := 1.0000000000000000, y := 0.3963377773761749, z := 0.2158037573099136 }
    r1 := { x := 1.0000000000000000, y := -0.1055613458156586, z := -0.0638541728258133 }
    r2 := { x := 1.0000000000000000, y := -0.0894841775298119, z := -1.2914855480194092 } }

/-- `D65_TO_D50_M` (`matrix_utils.rs`). -/
def D65_TO_D50_M : Matrix3x3 :=
  { r0 := { x := 1.0479297925449969, y := 0.022946870601609652, z := -0.05019226628920524 }
    r1 := { x := 0.02962780877005599, y := 0.9904344267538799, z := -0.017073799063418826 }
    r2 := { x := -0.009243040646204504, y := 0.015055191490298152, z := 0.7518742814281371 } }

/-- `D50_TO_D65_M` (`matrix_utils.rs`). -/
def D50_TO_D65_M : Matrix3x3 :=
  { r0 := { x := 0.955473421488075, y := -0.02309845494876471, z := 0.06325924320057072 }
    r1 := { x := -0.0283697093338637, y := 1.0099953980813041, z := 0.021041441191917323 }
    r2 := { x := 0.012314014864481998, y := -0.020507649298898964, z := 1.330365926242124 } }

/-- `WHITE_D65` (`matrix_utils.rs`). -/
def WHITE_D65 : Vector3 := { x := 0.95047, y := 1.0, z := 1.08883 }

/-- `WHITE_D50` (`matrix_utils.rs`). -/
def WHITE_D50 : Vector3 := { x := 0.96422, y := 1.0, z := 0.82521 }

open scoped Classical in
/-- `adapt_xyz` (`matrix_utils.rs`): Bradford adaptation, only for the two
supported white-point pairs; other pairs return the input unchanged. -/
noncomputable def adapt_xyz (xyz from_white to_white : Vector3) : Vector3 :=
  if from_white = to_white then xyz
  else if from_white = WHITE_D65 ∧ to_white = WHITE_D50 then multiply_v3_m3x3 xyz D65_TO_D50_M
  else if from_white = WHITE_D50 ∧ to_white = WHITE_D65 then multiply_v3_m3x3 xyz D50_TO_D65_M
  else xyz

/-- Rust float truncation toward zero, as a real number. -/
noncomputable def rustTrunc (t : ℝ) : ℝ :=
  if 0 ≤ t then (⌊t⌋ : ℝ) else (⌈t⌉ : ℝ)

/-- Rust `%` on floats (`fmod`): `x - y * trunc (x / y)`. -/
noncomputable def rustRem (x y : ℝ) : ℝ :=
  x - y * rustTrunc (x / y)

/-- `constrain_angle` (`matrix_utils.rs`): wrap into `[0, 360)` via `%` and a
sign correction. -/
noncomputable def constrain_angle (angle : ℝ) : ℝ :=
  let a := rustRem angle 360
  if a < 0 then a + 360 else a

/-! ### Real-valued color spaces and conversions (`color_space.rs`) -/

/-- XYZ D65 color space. -/
structure XyzD65 where
  x : ℝ
  y : ℝ
  z : ℝ
  a : ℚ

/-- XYZ D50 color space. -/
structure XyzD50 where
  x : ℝ
  y : ℝ
  z : ℝ
  a : ℚ

/-- Lab color space. -/
structure Lab where
  l : ℝ
  a : ℝ
  b : ℝ
  alpha : ℚ

/-- LCH color space. -/
structure LCH where
  l : ℝ
  c : ℝ
  h : ℝ
  alpha : ℚ

/-- OKLab color space. -/
structure OKLab where
  l : ℝ
  a : ℝ
  b : ℝ
  alpha : ℚ

/-- OKLCH color space. -/
structure OKLCH where
  l : ℝ
  c : ℝ
  h : ℝ
  alpha : ℚ

/-- Rust `f32::cbrt`: real cube root (odd extension of `rpow (1/3)`). -/
noncomputable def cbrt (x : ℝ) : ℝ :=
  if x < 0 then -((-x) ^ ((1 : ℝ) / 3)) else x ^ ((1 : ℝ) / 3)

/-- Rust `y.atan2(x)`: four-quadrant arctangent. -/
noncomputable def atan2 (y x : ℝ) : ℝ :=
  if 0 < x then Real.arctan (y / x)
  else if x < 0 then
    (if 0 ≤ y then Real.arctan (y / x) + Real.pi else Real.arctan (y / x) - Real.pi)
  else
    (if 0 < y then Real.pi / 2 else if y < 0 then -(Real.pi / 2) else 0)

/-- Rust `f32::round` over the real model. -/
noncomputable def rustRoundR (x : ℝ) : ℤ :=
  if x < 0 then -⌊-x + 1/2⌋ else ⌊x + 1/2⌋

/-- Rust `expr.round() as u8` over the real model. -/
noncomputable def roundU8R (x : ℝ) : ℕ :=
  min 255 (Int.toNat (rustRoundR x))

/-- `srgb_to_linear` (`color_space.rs`): IEC 61966-2-1 piecewise gamma decode. -/
noncomputable def srgb_to_linear (srgb : ℝ) : ℝ :=
  if srgb ≤ 0.04045 then srgb / 12.92
  else ((srgb + 0.055) / 1.055) ^ (2.4 : ℝ)

/-- `linear_to_srgb` (`color_space.rs`): IEC 61966-2-1 piecewise gamma encode. -/
noncomputable def linear_to_srgb (linear : ℝ) : ℝ :=
  if linear ≤ 0.0031308 then linear * 12.92
  else 1.055 * linear ^ ((1 : ℝ) / 2.4) - 0.055

/-- `EPSILON` (`color_space.rs`): `216/24389`. -/
noncomputable def labEPSILON : ℝ := 216 / 24389

/-- `EPSILON3` (`color_space.rs`): `24/116`. -/
noncomputable def labEPSILON3 : ℝ := 24 / 116

/-- `KAPPA` (`color_space.rs`): `24389/27`. -/
noncomputable def labKAPPA : ℝ := 24389 / 27

/-- `rgb_to_xyz_d65` (`color_space.rs`). -/
noncomputable def rgb_to_xyz_d65 (r g b : ℕ) (a : ℚ) : XyzD65 :=
  let rl := srgb_to_linear ((r : ℝ) / 255)
  let gl := srgb_to_linear ((g : ℝ) / 255)
  let bl := srgb_to_linear ((b : ℝ) / 255)
  { x := 0.4124564 * rl + 0.3575761 * gl + 0.1804375 * bl
    y := 0.2126729 * rl + 0.7151522 * gl + 0.0721750 * bl
    z := 0.0193339 * rl + 0.1191920 * gl + 0.9503041 * bl
    a := a }

/-- `xyz_d65_to_rgb` (`color_space.rs`). -/
noncomputable def xyz_d65_to_rgb (xyz : XyzD65) : ℕ × ℕ × ℕ × ℚ :=
  let rl := 3.2404542 * xyz.x - 1.5371385 * xyz.y - 0.4985314 * xyz.z
  let gl := -0.9692660 * xyz.x + 1.8760108 * xyz.y + 0.0415560 * xyz.z
  let bl := 0.0556434 * xyz.x - 0.2040259 * xyz.y + 1.0572252 * xyz.z
  (roundU8R (linear_to_srgb rl * 255),
   roundU8R (linear_to_srgb gl * 255),
   roundU8R (linear_to_srgb bl * 255),
   xyz.a)

/-- `xyz_d65_to_xyz_d50` (`color_space.rs`). -/
noncomputable def xyz_d65_to_xyz_d50 (xyz : XyzD65) : XyzD50 :=
  let v := adapt_xyz { x := xyz.x, y := xyz.y, z := xyz.z } WHITE_D65 WHITE_D50
  { x := v.x, y := v.y, z := v.z, a := xyz.a }

/-- `xyz_d50_to_xyz_d65` (`color_space.rs`). -/
noncomputable def xyz_d50_to_xyz_d65 (xyz : XyzD50) : XyzD65 :=
  let v := adapt_xyz { x := xyz.x, y := xyz.y, z := xyz.z } WHITE_D50 WHITE_D65
  { x := v.x, y := v.y, z := v.z, a := xyz.a }

open scoped Classical in
/-- `xyz_d50_to_lab` (`color_space.rs`): κ/ε piecewise lightness nonlinearity. -/
noncomputable def xyz_d50_to_lab (xyz : XyzD50) : Lab :=
  let f : ℝ → ℝ := fun value =>
    if value > labEPSILON then cbrt value else (labKAPPA * value + 16) / 116
  let f0 := f (xyz.x / WHITE_D50.x)
  let f1 := f (xyz.y / WHITE_D50.y)
  let f2 := f (xyz.z / WHITE_D50.z)
  { l := 116 * f1 - 16, a := 500 * (f0 - f1), b := 200 * (f1 - f2), alpha := xyz.a }

open scoped Classical in
/-- `lab_to_xyz_d50` (`color_space.rs`). -/
noncomputable def lab_to_xyz_d50 (lab : Lab) : XyzD50 :=
  let f1 := (lab.l + 16) / 116
  let f0 := lab.a / 500 + f1
  let f2 := f1 - lab.b / 200
  let x0 := if f0 > labEPSILON3 then f0 ^ (3 : ℕ) else (116 * f0 - 16) / labKAPPA
  let x1 := if lab.l > 8 then ((lab.l + 16) / 116) ^ (3 : ℕ) else lab.l / labKAPPA
  let x2 := if f2 > labEPSILON3 then f2 ^ (3 : ℕ) else (116 * f2 - 16) / labKAPPA
  { x := x0 * WHITE_D50.x, y := x1 * WHITE_D50.y, z := x2 * WHITE_D50.z, a := lab.alpha }

open scoped Classical in
/-- `lab_to_lch` (`color_space.rs`): polar conversion with achromatic special case. -/
noncomputable def lab_to_lch (lab : Lab) : LCH :=
  let c := Real.sqrt (lab.a ^ (2 : ℕ) + lab.b ^ (2 : ℕ))
  let h :=
    if |lab.a| < 1e-10 ∧ |lab.b| < 1e-10 then 0
    else constrain_angle (atan2 lab.b lab.a * 180 / Real.pi)
  { l := lab.l, c := c, h := h, alpha := lab.alpha }

/-- `lch_to_lab` (`color_space.rs`). -/
noncomputable def lch_to_lab (lch : LCH) : Lab :=
  let h_rad := lch.h * Real.pi / 180
  { l := lch.l, a := lch.c * Real.cos h_rad, b := lch.c * Real.sin h_rad, alpha := lch.alpha }

/-- `xyz_d65_to_oklab` (`color_space.rs`): XYZ→LMS, cube root, LMS→Lab. -/
noncomputable def xyz_d65_to_oklab (xyz : XyzD65) : OKLab :=
  let lms := multiply_v3_m3x3 { x := xyz.x, y := xyz.y, z := xyz.z } XYZ_TO_LMS_M
  let lms_cube : Vector3 := { x := cbrt lms.x, y := cbrt lms.y, z := cbrt lms.z }
  let lab := multiply_v3_m3x3 lms_cube LMS_TO_LAB_M
  { l := lab.x, a := lab.y, b := lab.z, alpha := xyz.a }

/-- `oklab_to_xyz_d65` (`color_space.rs`): Lab→LMS, cube, LMS→XYZ. -/
noncomputable def oklab_to_xyz_d65 (oklab : OKLab) : XyzD65 :=
  let lms_cube := multiply_v3_m3x3 { x := oklab.l, y := oklab.a, z := oklab.b } LAB_TO_LMS_M
  let lms : Vector3 :=
    { x := lms_cube.x ^ (3 : ℕ), y := lms_cube.y ^ (3 : ℕ), z := lms_cube.z ^ (3 : ℕ) }
  let xyz := multiply_v3_m3x3 lms LMS_TO_XYZ_M
  { x := xyz.x, y := xyz.y, z := xyz.z, a := oklab.alpha }

open scoped Classical in
/-- `oklab_to_oklch` (`color_space.rs`): polar conversion, achromatic special case. -/
noncomputable def oklab_to_oklch (oklab : OKLab) : OKLCH :=
  let c := Real.sqrt (oklab.a ^ (2 : ℕ) + oklab.b ^ (2 : ℕ))
  let h :=
    if |oklab.a| < 1e-10 ∧ |oklab.b| < 1e-10 then 0
    else constrain_angle (atan2 oklab.b oklab.a * 180 / Real.pi)
  { l := oklab.l, c := c, h := h, alpha := oklab.alpha }

/-- `oklch_to_oklab` (`color_space.rs`). -/
noncomputable def oklch_to_oklab (oklch : OKLCH) : OKLab :=
  let h_rad := oklch.h * Real.pi / 180
  { l := oklch.l
    a := oklch.c * Real.cos h_rad
    b := oklch.c * Real.sin h_rad
    alpha := oklch.alpha }

/-- `oklab_to_rgb` (`color_space.rs`). -/
noncomputable def oklab_to_rgb (oklab : OKLab) : ℕ × ℕ × ℕ × ℚ :=
  xyz_d65_to_rgb (oklab_to_xyz_d65 oklab)

/-- `rgb_to_oklch` (`color_space.rs`). -/
noncomputable def rgb_to_oklch (r g b : ℕ) (a : ℚ) : OKLCH :=
  oklab_to_oklch (xyz_d65_to_oklab (rgb_to_xyz_d65 r g b a))

/-- `oklch_to_rgb` (`color_space.rs`). -/
noncomputable def oklch_to_rgb (oklch : OKLCH) : ℕ × ℕ × ℕ × ℚ :=
  xyz_d65_to_rgb (oklab_to_xyz_d65 (oklch_to_oklab oklch))

/-- `rgb_to_lch` (`color_space.rs`). -/
noncomputable def rgb_to_lch (r g b : ℕ) (a : ℚ) : LCH :=
  lab_to_lch (xyz_d50_to_lab (xyz_d65_to_xyz_d50 (rgb_to_xyz_d65 r g b a)))

/-- `lch_to_rgb` (`color_space.rs`). -/
noncomputable def lch_to_rgb (lch : LCH) : ℕ × ℕ × ℕ × ℚ :=
  xyz_d65_to_rgb (xyz_d50_to_xyz_d65 (lab_to_xyz_d50 (lch_to_lab lch)))

/-! ### String parsing (`parse.rs`)

Each `Regex` in `parse.rs` is translated into a deterministic matcher over
`List Char`.  All capture groups in those anchored patterns draw on alphabets
(digits, `.`, `-`, hex digits) disjoint from what may follow them (whitespace,
`,`, `%`, `/`, `)`, end), so greedy left-to-right matching with the explicit
fallbacks below recognises exactly the same strings as the regexes. -/

/-- Format tags (`ColorFormat` in `lib.rs`). -/
inductive ColorFormat where
  | RGB | PRGB | HEX | HEX3 | HEX6 | HEX8 | HSL | HSV | HSB
  | LAB | LCH | OKLAB | OKLCH | CMYK | NAME | INVALID
  deriving DecidableEq, Repr

/-- Tagged parse result (`ColorInput` in `parse.rs`). -/
inductive ColorInput where
  | RGB (r g b : ℕ)
  | RGBA (r g b : ℕ) (a : ℚ)
  | HSL (h s l : ℚ)
  | HSLA (h s l a : ℚ)
  | HSV (h s v : ℚ)
  | HSVA (h s v a : ℚ)
  | HEX (r g b : ℕ)
  | HEX8 (r g b : ℕ) (a : ℚ)
  | NAME (r g b : ℕ)
  | LAB (l a b alpha : ℚ)
  | LCH (l c h alpha : ℚ)
  | OKLAB (l a b alpha : ℚ)
  | OKLCH (l c h alpha : ℚ)
  | CMYK (c m y k alpha : ℚ)
  deriving DecidableEq, Repr

/-- The regex class `\s`. -/
def isWsChar (c : Char) : Bool :=
  c = ' ' ∨ c = '\t' ∨ c = '\n' ∨ c = '\r' ∨ c = '\x0B' ∨ c = '\x0C'

/-- ASCII lowercasing (`str::to_lowercase`; inputs of interest are ASCII). -/
def asciiLower (c : Char) : Char :=
  if 'A' ≤ c ∧ c ≤ 'Z' then Char.ofNat (c.toNat + 32) else c

/-- `str::trim`. -/
def trimList (cs : List Char) : List Char :=
  ((cs.dropWhile isWsChar).reverse.dropWhile isWsChar).reverse

/-- Value of a decimal digit. -/
def digitVal (c : Char) : ℕ := c.toNat - 48

/-- Numeric value of a digit string. -/
def digitsToNat (ds : List Char) : ℕ :=
  ds.foldl (fun n c => 10 * n + digitVal c) 0

/-- Leading digit run and the rest. -/
def takeDigits (cs : List Char) : List Char × List Char :=
  (cs.takeWhile Char.isDigit, cs.dropWhile Char.isDigit)

/-- Fractional value of a digit string (digits after a decimal point). -/
def fracVal (ds : List Char) : ℚ :=
  (digitsToNat ds : ℚ) / 10 ^ ds.length

/-- Rust `parse::<u8>().unwrap_or(0)` applied to a digit token. -/
def parseU8 (ds : List Char) : ℕ :=
  let v := digitsToNat ds
  if v ≤ 255 then v else 0

/-- Skip `\s*`. -/
def skipWs (cs : List Char) : List Char := cs.dropWhile isWsChar

/-- Match one literal character. -/
def expectChar (c : Char) : List Char → Option (List Char)
  | x :: rest => if x = c then some rest else none
  | [] => none

/-- Match a literal character sequence. -/
def expectChars : List Char → List Char → Option (List Char)
  | [], cs => some cs
  | l :: ls, x :: rest => if x = l then expectChars ls rest else none
  | _ :: _, [] => none

/-- Match `\s+` (and absorb the whole run). -/
def expectWs1 : List Char → Option (List Char)
  | c :: rest => if isWsChar c then some (skipWs rest) else none
  | [] => none

/-- Require end of input (the `$` anchor). -/
def expectEnd : List Char → Option Unit
  | [] => some ()
  | _ :: _ => none

/-- Match `name\s*\(\s*` at the start of a functional notation. -/
def funcHead (lit : List Char) (cs : List Char) : Option (List Char) := do
  let cs ← expectChars lit cs
  let cs := skipWs cs
  let cs ← expectChar '(' cs
  pure (skipWs cs)

/-- Match `\s*,\s*`. -/
def sepComma (cs : List Char) : Option (List Char) := do
  let cs ← expectChar ',' (skipWs cs)
  pure (skipWs cs)

/-- Match `\s*,?\s*`. -/
def sepCommaOpt (cs : List Char) : List Char :=
  match skipWs cs with
  | ',' :: rest => skipWs rest
  | other => other

/-- Match `\s*\)$`. -/
def closeParen (cs : List Char) : Option Unit := do
  let cs ← expectChar ')' (skipWs cs)
  expectEnd cs

/-- Match `(\d+)`, returning the digit token. -/
def matchUInt (cs : List Char) : Option (List Char × List Char) :=
  let (d, r) := takeDigits cs
  if d.isEmpty then none else some (d, r)

/-- Match `(\d+(?:\.\d+)?)`: the optional fraction applies only when at least
one digit follows the dot (otherwise the dot is left unconsumed, as the regex
would). -/
def matchNum (cs : List Char) : Option (ℚ × List Char) :=
  match matchUInt cs with
  | none => none
  | some (d1, r1) =>
    match r1 with
    | '.' :: r2 =>
      let (d2, r3) := takeDigits r2
      if d2.isEmpty then some ((digitsToNat d1 : ℚ), r1)
      else some ((digitsToNat d1 : ℚ) + fracVal d2, r3)
    | _ => some ((digitsToNat d1 : ℚ), r1)

/-- Match `(-?\d+(?:\.\d+)?)`. -/
def matchSigned (cs : List Char) : Option (ℚ × List Char) :=
  match cs with
  | '-' :: r => (matchNum r).map (fun p => (-p.1, p.2))
  | _ => matchNum cs

/-- Match `(\d*\.?\d+)`. -/
def matchNumD (cs : List Char) : Option (ℚ × List Char) :=
  let (d1, r1) := takeDigits cs
  match r1 with
  | '.' :: r2 =>
    let (d2, r3) := takeDigits r2
    if d2.isEmpty then (if d1.isEmpty then none else some ((digitsToNat d1 : ℚ), r1))
    else some ((digitsToNat d1 : ℚ) + fracVal d2, r3)
  | _ => if d1.isEmpty then none else some ((digitsToNat d1 : ℚ), r1)

/-- Characters an alpha capture group may contain. -/
def isNumChar (c : Char) : Bool := c.isDigit || c = '.'

/-- Maximal run of digit or dot characters, and the rest. -/
def takeNumRun (cs : List Char) : List Char × List Char :=
  (cs.takeWhile isNumChar, cs.dropWhile isNumChar)

/-- Membership in the language of `[01]?\.?\d*`. -/
def alphaStarForm (run : List Char) : Bool :=
  match run with
  | [] => true
  | '.' :: t => t.all Char.isDigit
  | c :: t =>
    if c = '0' ∨ c = '1' then
      (match t with
       | '.' :: t2 => t2.all Char.isDigit
       | _ => t.all Char.isDigit)
    else run.all Char.isDigit

/-- Membership in the language of `[01]?\.?\d+`. -/
def alphaPlusForm (run : List Char) : Bool :=
  match run with
  | [] => false
  | '.' :: t => !t.isEmpty && t.all Char.isDigit
  | c :: t =>
    if c = '0' ∨ c = '1' then
      (match t with
       | '.' :: t2 => !t2.isEmpty && t2.all Char.isDigit
       | _ => run.all Char.isDigit)
    else run.all Char.isDigit

/-- Rust `str::parse::<f32>()` on a token made of digits and at most one dot:
fails when the token holds no digit (for example `""` or `"."`). -/
def parseF32Tok (cs : List Char) : Option ℚ :=
  if cs.all (fun c => !c.isDigit) then none
  else
    let (d1, r1) := takeDigits cs
    match r1 with
    | [] => some (digitsToNat d1 : ℚ)
    | '.' :: r2 =>
      let (d2, r3) := takeDigits r2
      if r3.isEmpty then some ((digitsToNat d1 : ℚ) + fracVal d2) else none
    | _ => none

/-- Match the capture `([01]?\.?\d*)` and run the Rust `f32` parse on it. -/
def matchAlphaStar (cs : List Char) : Option (Option ℚ × List Char) :=
  let (run, rest) := takeNumRun cs
  if alphaStarForm run then some (parseF32Tok run, rest) else none

/-- Match the capture `([01]?\.?\d+)` and run the Rust `f32` parse on it. -/
def matchAlphaPlus (cs : List Char) : Option (Option ℚ × List Char) :=
  let (run, rest) := takeNumRun cs
  if alphaPlusForm run then some (parseF32Tok run, rest) else none

/-- Hex digit test over lowercased input. -/
def isHexChar (c : Char) : Bool := c.isDigit || ('a' ≤ c && c ≤ 'f')

/-- Hex digit value over lowercased input. -/
def hexVal (c : Char) : ℕ := if c.isDigit then digitVal c else c.toNat - 87

/-- Skip the optional `#?`. -/
def skipHashOpt (cs : List Char) : List Char :=
  match cs with
  | '#' :: r => r
  | _ => cs

/-- `^#?` followed by exactly `n` hex digits and the end of input. -/
def matchHexRun (n : ℕ) (cs : List Char) : Option (List Char) :=
  let cs := skipHashOpt cs
  if cs.length = n ∧ cs.all isHexChar then some cs else none

/-- The `HEX_3` pattern: duplicated-digit channels. -/
def matchHEX3 (cs : List Char) : Option (ℕ × ℕ × ℕ) := do
  match ← matchHexRun 3 cs with
  | [c1, c2, c3] => pure (17 * hexVal c1, 17 * hexVal c2, 17 * hexVal c3)
  | _ => none

/-- The `HEX_6` pattern. -/
def matchHEX6 (cs : List Char) : Option (ℕ × ℕ × ℕ) := do
  match ← matchHexRun 6 cs with
  | [c1, c2, c3, c4, c5, c6] =>
      pure (16 * hexVal c1 + hexVal c2, 16 * hexVal c3 + hexVal c4, 16 * hexVal c5 + hexVal c6)
  | _ => none

/-- The `HEX_4` pattern: duplicated digits, alpha byte scaled by 255. -/
def matchHEX4 (cs : List Char) : Option (ℕ × ℕ × ℕ × ℚ) := do
  match ← matchHexRun 4 cs with
  | [c1, c2, c3, c4] =>
      pure (17 * hexVal c1, 17 * hexVal c2, 17 * hexVal c3, ((17 * hexVal c4 : ℕ) : ℚ) / 255)
  | _ => none

/-- The `HEX_8` pattern. -/
def matchHEX8 (cs : List Char) : Option (ℕ × ℕ × ℕ × ℚ) := do
  match ← matchHexRun 8 cs with
  | [c1, c2, c3, c4, c5, c6, c7, c8] =>
      pure (16 * hexVal c1 + hexVal c2, 16 * hexVal c3 + hexVal c4,
            16 * hexVal c5 + hexVal c6, ((16 * hexVal c7 + hexVal c8 : ℕ) : ℚ) / 255)
  | _ => none

/-- Literal `rgb`. -/
def litRGB : List Char := ['r', 'g', 'b']

/-- Literal `rgba`. -/
def litRGBA : List Char := ['r', 'g', 'b', 'a']

/-- Literal `hsl`. -/
def litHSL : List Char := ['h', 's', 'l']

/-- Literal `hsla`. -/
def litHSLA : List Char := ['h', 's', 'l', 'a']

/-- Literal `hsv`. -/
def litHSV : List Char := ['h', 's', 'v']

/-- Literal `hsva`. -/
def litHSVA : List Char := ['h', 's', 'v', 'a']

/-- Literal `hsb`. -/
def litHSB : List Char := ['h', 's', 'b']

/-- Literal `hsba`. -/
def litHSBA : List Char := ['h', 's', 'b', 'a']

/-- Literal `lab`. -/
def litLAB : List Char := ['l', 'a', 'b']

/-- Literal `lch`. -/
def litLCH : List Char := ['l', 'c', 'h']

/-- Literal `oklab`. -/
def litOKLAB : List Char := ['o', 'k', 'l', 'a', 'b']

/-- Literal `oklch`. -/
def litOKLCH : List Char := ['o', 'k', 'l', 'c', 'h']

/-- Literal `cmyk`. -/
def litCMYK : List Char := ['c', 'm', 'y', 'k']

/-- The `RGB` pattern: `^rgb\s*\(\s*(\d+)\s*,\s*(\d+)\s*,\s*(\d+)\s*\)$`. -/
def matchRGB (cs : List Char) : Option (ℕ × ℕ × ℕ) := do
  let cs ← funcHead litRGB cs
  let (d1, cs) ← matchUInt cs
  let cs ← sepComma cs
  let (d2, cs) ← matchUInt cs
  let cs ← sepComma cs
  let (d3, cs) ← matchUInt cs
  closeParen cs
  pure (parseU8 d1, parseU8 d2, parseU8 d3)

/-- The `RGB_PERCENT` pattern. -/
def matchRGBPercent (cs : List Char) : Option (ℚ × ℚ × ℚ) := do
  let cs ← funcHead litRGB cs
  let (q1, cs) ← matchNum cs
  let cs ← expectChar '%' cs
  let cs ← sepComma cs
  let (q2, cs) ← matchNum cs
  let cs ← expectChar '%' cs
  let cs ← sepComma cs
  let (q3, cs) ← matchNum cs
  let cs ← expectChar '%' cs
  closeParen cs
  pure (q1, q2, q3)

/-- The `RGBA` pattern, alpha via `[01]?\.?\d*` with `unwrap_or(1.0)`. -/
def matchRGBA (cs : List Char) : Option (ℕ × ℕ × ℕ × ℚ) := do
  let cs ← funcHead litRGBA cs
  let (d1, cs) ← matchUInt cs
  let cs ← sepComma cs
  let (d2, cs) ← matchUInt cs
  let cs ← sepComma cs
  let (d3, cs) ← matchUInt cs
  let cs ← sepComma cs
  let (al, cs) ← matchAlphaStar cs
  closeParen cs
  pure (parseU8 d1, parseU8 d2, parseU8 d3, al.getD 1)

/-- The `RGBA_PERCENT` pattern. -/
def matchRGBAPercent (cs : List Char) : Option (ℚ × ℚ × ℚ × ℚ) := do
  let cs ← funcHead litRGBA cs
  let (q1, cs) ← matchNum cs
  let cs ← expectChar '%' cs
  let cs ← sepComma cs
  let (q2, cs) ← matchNum cs
  let cs ← expectChar '%' cs
  let cs ← sepComma cs
  let (q3, cs) ← matchNum cs
  let cs ← expectChar '%' cs
  let cs ← sepComma cs
  let (al, cs) ← matchAlphaStar cs
  closeParen cs
  pure (q1, q2, q3, al.getD 1)

/-- The `HSL` pattern. -/
def matchHSL (cs : List Char) : Option (ℚ × ℚ × ℚ) := do
  let cs ← funcHead litHSL cs
  let (h, cs) ← matchNum cs
  let cs ← sepComma cs
  let (s, cs) ← matchNum cs
  let cs ← expectChar '%' cs
  let cs ← sepComma cs
  let (l, cs) ← matchNum cs
  let cs ← expectChar '%' cs
  closeParen cs
  pure (h, s, l)

/-- The `HSL_SPACE` pattern: `^(\d+(?:\.\d+)?)\s+(\d+(?:\.\d+)?)%\s+(\d+(?:\.\d+)?)%$`. -/
def matchHSLSpace (cs : List Char) : Option (ℚ × ℚ × ℚ) := do
  let (h, cs) ← matchNum cs
  let cs ← expectWs1 cs
  let (s, cs) ← matchNum cs
  let cs ← expectChar '%' cs
  let cs ← expectWs1 cs
  let (l, cs) ← matchNum cs
  let cs ← expectChar '%' cs
  expectEnd cs
  pure (h, s, l)

/-- The `HSLA` pattern. -/
def matchHSLA (cs : List Char) : Option (ℚ × ℚ × ℚ × ℚ) := do
  let cs ← funcHead litHSLA cs
  let (h, cs) ← matchNum cs
  let cs ← sepComma cs
  let (s, cs) ← matchNum cs
  let cs ← expectChar '%' cs
  let cs ← sepComma cs
  let (l, cs) ← matchNum cs
  let cs ← expectChar '%' cs
  let cs ← sepComma cs
  let (al, cs) ← matchAlphaStar cs
  closeParen cs
  pure (h, s, l, al.getD 1)

/-- Integer-component `hsv`-family pattern body after the head. -/
def matchIntTriplePercent (cs : List Char) : Option (ℚ × ℚ × ℚ × List Char) := do
  let (d1, cs) ← matchUInt cs
  let cs ← sepComma cs
  let (d2, cs) ← matchUInt cs
  let cs ← expectChar '%' cs
  let cs ← sepComma cs
  let (d3, cs) ← matchUInt cs
  let cs ← expectChar '%' cs
  pure ((digitsToNat d1 : ℚ), (digitsToNat d2 : ℚ), (digitsToNat d3 : ℚ), cs)

/-- The `HSV` pattern: `^hsv\s*\(\s*(\d+)\s*,\s*(\d+)%\s*,\s*(\d+)%\s*\)$`. -/
def matchHSV (cs : List Char) : Option (ℚ × ℚ × ℚ) := do
  let cs ← funcHead litHSV cs
  let (h, s, v, cs) ← matchIntTriplePercent cs
  closeParen cs
  pure (h, s, v)

/-- The `HSVA` pattern. -/
def matchHSVA (cs : List Char) : Option (ℚ × ℚ × ℚ × ℚ) := do
  let cs ← funcHead litHSVA cs
  let (h, s, v, cs) ← matchIntTriplePercent cs
  let cs ← sepComma cs
  let (al, cs) ← matchAlphaStar cs
  closeParen cs
  pure (h, s, v, al.getD 1)

/-- The `HSB` pattern. -/
def matchHSB (cs : List Char) : Option (ℚ × ℚ × ℚ) := do
  let cs ← funcHead litHSB cs
  let (h, s, b, cs) ← matchIntTriplePercent cs
  closeParen cs
  pure (h, s, b)

/-- The `HSBA` pattern. -/
def matchHSBA (cs : List Char) : Option (ℚ × ℚ × ℚ × ℚ) := do
  let cs ← funcHead litHSBA cs
  let (h, s, b, cs) ← matchIntTriplePercent cs
  let cs ← sepComma cs
  let (al, cs) ← matchAlphaStar cs
  closeParen cs
  pure (h, s, b, al.getD 1)

/-- Tail `\s*(?:,\s*([01]?\.?\d+))?\s*\)$` shared by the lab-family patterns;
alpha parse failures fall back to `1.0` via `unwrap_or`. -/
def optAlphaClose (cs : List Char) : Option ℚ :=
  match skipWs cs with
  | ',' :: cs2 => do
      let (al, cs3) ← matchAlphaPlus (skipWs cs2)
      closeParen cs3
      pure (al.getD 1)
  | other => do
      closeParen other
      pure 1

/-- Tail `\s*/\s*([01]?\.?\d+)\s*\)$` shared by the `_WITH_SLASH` patterns. -/
def slashAlphaClose (cs : List Char) : Option ℚ := do
  let cs ← expectChar '/' (skipWs cs)
  let (al, cs) ← matchAlphaPlus (skipWs cs)
  closeParen cs
  pure (al.getD 1)

/-- The `LAB` pattern: `lab( l, a, b [, alpha] )` with optional commas. -/
def matchLAB (cs : List Char) : Option (ℚ × ℚ × ℚ × ℚ) := do
  let cs ← funcHead litLAB cs
  let (l, cs) ← matchNum cs
  let cs := sepCommaOpt cs
  let (a, cs) ← matchSigned cs
  let cs := sepCommaOpt cs
  let (b, cs) ← matchSigned cs
  let al ← optAlphaClose cs
  pure (l, a, b, al)

/-- The `LAB_WITH_SLASH` pattern. -/
def matchLABSlash (cs : List Char) : Option (ℚ × ℚ × ℚ × ℚ) := do
  let cs ← funcHead litLAB cs
  let (l, cs) ← matchNum cs
  let cs := sepCommaOpt cs
  let (a, cs) ← matchSigned cs
  let cs := sepCommaOpt cs
  let (b, cs) ← matchSigned cs
  let al ← slashAlphaClose cs
  pure (l, a, b, al)

/-- The `LCH` pattern. -/
def matchLCH (cs : List Char) : Option (ℚ × ℚ × ℚ × ℚ) := do
  let cs ← funcHead litLCH cs
  let (l, cs) ← matchNum cs
  let cs := sepCommaOpt cs
  let (c, cs) ← matchNum cs
  let cs := sepCommaOpt cs
  let (h, cs) ← matchNum cs
  let al ← optAlphaClose cs
  pure (l, c, h, al)

/-- The `LCH_WITH_SLASH` pattern. -/
def matchLCHSlash (cs : List Char) : Option (ℚ × ℚ × ℚ × ℚ) := do
  let cs ← funcHead litLCH cs
  let (l, cs) ← matchNum cs
  let cs := sepCommaOpt cs
  let (c, cs) ← matchNum cs
  let cs := sepCommaOpt cs
  let (h, cs) ← matchNum cs
  let al ← slashAlphaClose cs
  pure (l, c, h, al)

/-- The `OKLAB` pattern (`oklab( l%, a, b [, alpha] )`). -/
def matchOKLAB (cs : List Char) : Option (ℚ × ℚ × ℚ × ℚ) := do
  let cs ← funcHead litOKLAB cs
  let (l, cs) ← matchNum cs
  let cs ← expectChar '%' cs
  let cs := sepCommaOpt cs
  let (a, cs) ← matchSigned cs
  let cs := sepCommaOpt cs
  let (b, cs) ← matchSigned cs
  let al ← optAlphaClose cs
  pure (l, a, b, al)

/-- The `OKLAB_WITH_SLASH` pattern. -/
def matchOKLABSlash (cs : List Char) : Option (ℚ × ℚ × ℚ × ℚ) := do
  let cs ← funcHead litOKLAB cs
  let (l, cs) ← matchNum cs
  let cs ← expectChar '%' cs
  let cs := sepCommaOpt cs
  let (a, cs) ← matchSigned cs
  let cs := sepCommaOpt cs
  let (b, cs) ← matchSigned cs
  let al ← slashAlphaClose cs
  pure (l, a, b, al)

/-- The `OKLCH` pattern (`oklch( l%, c, h [, alpha] )`). -/
def matchOKLCH (cs : List Char) : Option (ℚ × ℚ × ℚ × ℚ) := do
  let cs ← funcHead litOKLCH cs
  let (l, cs) ← matchNum cs
  let cs ← expectChar '%' cs
  let cs := sepCommaOpt cs
  let (c, cs) ← matchNum cs
  let cs := sepCommaOpt cs
  let (h, cs) ← matchNum cs
  let al ← optAlphaClose cs
  pure (l, c, h, al)

/-- The `OKLCH_WITH_SLASH` pattern. -/
def matchOKLCHSlash (cs : List Char) : Option (ℚ × ℚ × ℚ × ℚ) := do
  let cs ← funcHead litOKLCH cs
  let (l, cs) ← matchNum cs
  let cs ← expectChar '%' cs
  let cs := sepCommaOpt cs
  let (c, cs) ← matchNum cs
  let cs := sepCommaOpt cs
  let (h, cs) ← matchNum cs
  let al ← slashAlphaClose cs
  pure (l, c, h, al)

/-- The `OKLCH_DECIMAL` pattern (space-separated decimal lightness form). -/
def matchOKLCHDecimal (cs : List Char) : Option (ℚ × ℚ × ℚ × ℚ) := do
  let cs ← funcHead litOKLCH cs
  let (l, cs) ← matchNumD cs
  let cs ← expectWs1 cs
  let (c, cs) ← matchNumD cs
  let cs ← expectWs1 cs
  let (h, cs) ← matchNum cs
  let al ← optAlphaClose cs
  pure (l, c, h, al)

/-- The `OKLCH_DECIMAL_WITH_SLASH` pattern. -/
def matchOKLCHDecimalSlash (cs : List Char) : Option (ℚ × ℚ × ℚ × ℚ) := do
  let cs ← funcHead litOKLCH cs
  let (l, cs) ← matchNumD cs
  let cs ← expectWs1 cs
  let (c, cs) ← matchNumD cs
  let cs ← expectWs1 cs
  let (h, cs) ← matchNum cs
  let al ← slashAlphaClose cs
  pure (l, c, h, al)

/-- The `CMYK` pattern. -/
def matchCMYK (cs : List Char) : Option (ℚ × ℚ × ℚ × ℚ × ℚ) := do
  let cs ← funcHead litCMYK cs
  let (c, cs) ← matchNum cs
  let cs ← expectChar '%' cs
  let cs ← sepComma cs
  let (m, cs) ← matchNum cs
  let cs ← expectChar '%' cs
  let cs ← sepComma cs
  let (y, cs) ← matchNum cs
  let cs ← expectChar '%' cs
  let cs ← sepComma cs
  let (k, cs) ← matchNum cs
  let cs ← expectChar '%' cs
  let al ← optAlphaClose cs
  pure (c, m, y, k, al)

/-- The `CMYK_WITH_SLASH` pattern. -/
def matchCMYKSlash (cs : List Char) : Option (ℚ × ℚ × ℚ × ℚ × ℚ) := do
  let cs ← funcHead litCMYK cs
  let (c, cs) ← matchNum cs
  let cs ← expectChar '%' cs
  let cs ← sepComma cs
  let (m, cs) ← matchNum cs
  let cs ← expectChar '%' cs
  let cs ← sepComma cs
  let (y, cs) ← matchNum cs
  let cs ← expectChar '%' cs
  let cs ← sepComma cs
  let (k, cs) ← matchNum cs
  let cs ← expectChar '%' cs
  let al ← slashAlphaClose cs
  pure (c, m, y, k, al)

/-- The named-color table (`names()` in `parse.rs`): case-insensitive CSS/SVG
color names mapped to hex triples. -/
def namesList : List (String × String) := [
    (r"aliceblue", r"f0f8ff"),
    (r"antiquewhite", r"faebd7"),
    (r"aqua", r"0ff"),
    (r"aquamarine", r"7fffd4"),
    (r"azure", r"f0ffff"),
    (r"beige", r"f5f5dc"),
    (r"bisque", r"ffe4c4"),
    (r"black", r"000"),
    (r"blanchedalmond", r"ffebcd"),
    (r"blue", r"00f"),
    (r"blueviolet", r"8a2be2"),
    (r"brown", r"a52a2a"),
    (r"burlywood", r"deb887"),
    (r"burntsienna", r"ea7e5d"),
    (r"cadetblue", r"5f9ea0"),
    (r"chartreuse", r"7fff00"),
    (r"chocolate", r"d2691e"),
    (r"coral", r"ff7f50"),
    (r"cornflowerblue", r"6495ed"),
    (r"cornsilk", r"fff8dc"),
    (r"crimson", r"dc143c"),
    (r"cyan", r"0ff"),
    (r"darkblue", r"00008b"),
    (r"darkcyan", r"008b8b"),
    (r"darkgoldenrod", r"b8860b"),
    (r"darkgray", r"a9a9a9"),
    (r"darkgreen", r"006400"),
    (r"darkgrey", r"a9a9a9"),
    (r"darkkhaki", r"bdb76b"),
    (r"darkmagenta", r"8b008b"),
    (r"darkolivegreen", r"556b2f"),
    (r"darkorange", r"ff8c00"),
    (r"darkorchid", r"9932cc"),
    (r"darkred", r"8b0000"),
    (r"darksalmon", r"e9967a"),
    (r"darkseagreen", r"8fbc8f"),
    (r"darkslateblue", r"483d8b"),
    (r"darkslategray", r"2f4f4f"),
    (r"darkslategrey", r"2f4f4f"),
    (r"darkturquoise", r"00ced1"),
    (r"darkviolet", r"9400d3"),
    (r"deeppink", r"ff1493"),
    (r"deepskyblue", r"00bfff"),
    (r"dimgray", r"696969"),
    (r"dimgrey", r"696969"),
    (r"dodgerblue", r"1e90ff"),
    (r"firebrick", r"b22222"),
    (r"floralwhite", r"fffaf0"),
    (r"forestgreen", r"228b22"),
    (r"fuchsia", r"f0f"),
    (r"gainsboro", r"dcdcdc"),
    (r"ghostwhite", r"f8f8ff"),
    (r"gold", r"ffd700"),
    (r"goldenrod", r"daa520"),
    (r"gray", r"808080"),
    (r"green", r"008000"),
    (r"greenyellow", r"adff2f"),
    (r"grey", r"808080"),
    (r"honeydew", r"f0fff0"),
    (r"hotpink", r"ff69b4"),
    (r"indianred", r"cd5c5c"),
    (r"indigo", r"4b0082"),
    (r"ivory", r"fffff0"),
    (r"khaki", r"f0e68c"),
    (r"lavender", r"e6e6fa"),
    (r"lavenderblush", r"fff0f5"),
    (r"lawngreen", r"7cfc00"),
    (r"lemonchiffon", r"fffacd"),
    (r"lightblue", r"add8e6"),
    (r"lightcoral", r"f08080"),
    (r"lightcyan", r"e0ffff"),
    (r"lightgoldenrodyellow", r"fafad2"),
    (r"lightgray", r"d3d3d3"),
    (r"lightgreen", r"90ee90"),
    (r"lightgrey", r"d3d3d3"),
    (r"lightpink", r"ffb6c1"),
    (r"lightsalmon", r"ffa07a"),
    (r"lightseagreen", r"20b2aa"),
    (r"lightskyblue", r"87cefa"),
    (r"lightslategray", r"789"),
    (r"lightslategrey", r"789"),
    (r"lightsteelblue", r"b0c4de"),
    (r"lightyellow", r"ffffe0"),
    (r"lime", r"0f0"),
    (r"limegreen", r"32cd32"),
    (r"linen", r"faf0e6"),
    (r"magenta", r"f0f"),
    (r"maroon", r"800000"),
    (r"mediumaquamarine", r"66cdaa"),
    (r"mediumblue", r"0000cd"),
    (r"mediumorchid", r"ba55d3"),
    (r"mediumpurple", r"9370db"),
    (r"mediumseagreen", r"3cb371"),
    (r"mediumslateblue", r"7b68ee"),
    (r"mediumspringgreen", r"00fa9a"),
    (r"mediumturquoise", r"48d1cc"),
    (r"mediumvioletred", r"c71585"),
    (r"midnightblue", r"191970"),
    (r"mintcream", r"f5fffa"),
    (r"mistyrose", r"ffe4e1"),
    (r"moccasin", r"ffe4b5"),
    (r"navajowhite", r"ffdead"),
    (r"navy", r"000080"),
    (r"oldlace", r"fdf5e6"),
    (r"olive", r"808000"),
    (r"olivedrab", r"6b8e23"),
    (r"orange", r"ffa500"),
    (r"orangered", r"ff4500"),
    (r"orchid", r"da70d6"),
    (r"palegoldenrod", r"eee8aa"),
    (r"palegreen", r"98fb98"),
    (r"paleturquoise", r"afeeee"),
    (r"palevioletred", r"db7093"),
    (r"papayawhip", r"ffefd5"),
    (r"peachpuff", r"ffdab9"),
    (r"peru", r"cd853f"),
    (r"pink", r"ffc0cb"),
    (r"plum", r"dda0dd"),
    (r"powderblue", r"b0e0e6"),
    (r"purple", r"800080"),
    (r"rebeccapurple", r"663399"),
    (r"red", r"f00"),
    (r"rosybrown", r"bc8f8f"),
    (r"royalblue", r"4169e1"),
    (r"saddlebrown", r"8b4513"),
    (r"salmon", r"fa8072"),
    (r"sandybrown", r"f4a460"),
    (r"seagreen", r"2e8b57"),
    (r"seashell", r"fff5ee"),
    (r"sienna", r"a0522d"),
    (r"silver", r"c0c0c0"),
    (r"skyblue", r"87ceeb"),
    (r"slateblue", r"6a5acd"),
    (r"slategray", r"708090"),
    (r"slategrey", r"708090"),
    (r"snow", r"fffafa"),
    (r"springgreen", r"00ff7f"),
    (r"steelblue", r"4682b4"),
    (r"tan", r"d2b48c"),
    (r"teal", r"008080"),
    (r"thistle", r"d8bfd8"),
    (r"tomato", r"ff6347"),
    (r"turquoise", r"40e0d0"),
    (r"violet", r"ee82ee"),
    (r"wheat", r"f5deb3"),
    (r"white", r"fff"),
    (r"whitesmoke", r"f5f5f5"),
    (r"yellow", r"ff0"),
    (r"yellowgreen", r"9acd32")
  ]

/-- `names().get(..)`. -/
def lookupName (s : String) : Option String :=
  (namesList.find? (fun p => p.1 = s)).map (fun p => p.2)

/-- The literal string compared against for `"transparent"`. -/
def transparentStr : String := (r"transparent")

/-- `parse_hex` (`parse.rs`): strip leading `#` characters, accept length-3 or
length-6 hex strings only. -/
def parse_hex (hex : String) : Option (ℕ × ℕ × ℕ) :=
  let cs := hex.data.dropWhile (fun c => c = '#')
  if cs.all isHexChar then
    match cs with
    | [c1, c2, c3] => some (17 * hexVal c1, 17 * hexVal c2, 17 * hexVal c3)
    | [c1, c2, c3, c4, c5, c6] =>
        some (16 * hexVal c1 + hexVal c2, 16 * hexVal c3 + hexVal c4, 16 * hexVal c5 + hexVal c6)
    | _ => none
  else none

/-- Hex-triple arm of the pattern dispatch. -/
def siHEX3 (cs : List Char) : Option ColorInput :=
  (matchHEX3 cs).map (fun t => ColorInput.HEX t.1 t.2.1 t.2.2)

/-- Hex-sextuple arm. -/
def siHEX6 (cs : List Char) : Option ColorInput :=
  (matchHEX6 cs).map (fun t => ColorInput.HEX t.1 t.2.1 t.2.2)

/-- Hex-quadruple arm. -/
def siHEX4 (cs : List Char) : Option ColorInput :=
  (matchHEX4 cs).map (fun t => ColorInput.HEX8 t.1 t.2.1 t.2.2.1 t.2.2.2)

/-- Hex-octuple arm. -/
def siHEX8 (cs : List Char) : Option ColorInput :=
  (matchHEX8 cs).map (fun t => ColorInput.HEX8 t.1 t.2.1 t.2.2.1 t.2.2.2)

/-- `rgb()` arm. -/
def siRGB (cs : List Char) : Option ColorInput :=
  (matchRGB cs).map (fun t => ColorInput.RGB t.1 t.2.1 t.2.2)

/-- `rgb(%,%,%)` arm: `(pct * 2.55).round() as u8`. -/
def siRGBPercent (cs : List Char) : Option ColorInput :=
  (matchRGBPercent cs).map (fun t =>
    ColorInput.RGB (roundU8 (t.1 * 2.55)) (roundU8 (t.2.1 * 2.55)) (roundU8 (t.2.2 * 2.55)))

/-- `rgba()` arm. -/
def siRGBA (cs : List Char) : Option ColorInput :=
  (matchRGBA cs).map (fun t => ColorInput.RGBA t.1 t.2.1 t.2.2.1 t.2.2.2)

/-- `rgba(%,%,%,a)` arm. -/
def siRGBAPercent (cs : List Char) : Option ColorInput :=
  (matchRGBAPercent cs).map (fun t =>
    ColorInput.RGBA (roundU8 (t.1 * 2.55)) (roundU8 (t.2.1 * 2.55)) (roundU8 (t.2.2.1 * 2.55))
      t.2.2.2)

/-- `hsl()` arm: saturation and lightness scaled by 100, hue by 360. -/
def siHSL (cs : List Char) : Option ColorInput :=
  (matchHSL cs).map (fun t => ColorInput.HSL (t.1 / 360) (t.2.1 / 100) (t.2.2 / 100))

/-- Bare space-separated HSL arm. -/
def siHSLSpace (cs : List Char) : Option ColorInput :=
  (matchHSLSpace cs).map (fun t => ColorInput.HSL (t.1 / 360) (t.2.1 / 100) (t.2.2 / 100))

/-- `hsla()` arm. -/
def siHSLA (cs : List Char) : Option ColorInput :=
  (matchHSLA cs).map (fun t => ColorInput.HSLA (t.1 / 360) (t.2.1 / 100) (t.2.2.1 / 100) t.2.2.2)

/-- `hsv()` arm. -/
def siHSV (cs : List Char) : Option ColorInput :=
  (matchHSV cs).map (fun t => ColorInput.HSV (t.1 / 360) (t.2.1 / 100) (t.2.2 / 100))

/-- `hsva()` arm. -/
def siHSVA (cs : List Char) : Option ColorInput :=
  (matchHSVA cs).map (fun t => ColorInput.HSVA (t.1 / 360) (t.2.1 / 100) (t.2.2.1 / 100) t.2.2.2)

/-- `lab()` arm. -/
def siLAB (cs : List Char) : Option ColorInput :=
  (matchLAB cs).map (fun t => ColorInput.LAB t.1 t.2.1 t.2.2.1 t.2.2.2)

/-- `lab(... / a)` arm. -/
def siLABSlash (cs : List Char) : Option ColorInput :=
  (matchLABSlash cs).map (fun t => ColorInput.LAB t.1 t.2.1 t.2.2.1 t.2.2.2)

/-- `lch()` arm. -/
def siLCH (cs : List Char) : Option ColorInput :=
  (matchLCH cs).map (fun t => ColorInput.LCH t.1 t.2.1 t.2.2.1 t.2.2.2)

/-- `lch(... / a)` arm. -/
def siLCHSlash (cs : List Char) : Option ColorInput :=
  (matchLCHSlash cs).map (fun t => ColorInput.LCH t.1 t.2.1 t.2.2.1 t.2.2.2)

/-- `oklab()` arm: lightness percentage scaled by 100. -/
def siOKLAB (cs : List Char) : Option ColorInput :=
  (matchOKLAB cs).map (fun t => ColorInput.OKLAB (t.1 / 100) t.2.1 t.2.2.1 t.2.2.2)

/-- `oklab(... / a)` arm. -/
def siOKLABSlash (cs : List Char) : Option ColorInput :=
  (matchOKLABSlash cs).map (fun t => ColorInput.OKLAB (t.1 / 100) t.2.1 t.2.2.1 t.2.2.2)

/-- `oklch()` arm. -/
def siOKLCH (cs : List Char) : Option ColorInput :=
  (matchOKLCH cs).map (fun t => ColorInput.OKLCH (t.1 / 100) t.2.1 t.2.2.1 t.2.2.2)

/-- `oklch(... / a)` arm. -/
def siOKLCHSlash (cs : List Char) : Option ColorInput :=
  (matchOKLCHSlash cs).map (fun t => ColorInput.OKLCH (t.1 / 100) t.2.1 t.2.2.1 t.2.2.2)

/-- Decimal-lightness `oklch` arm (no percentage scaling). -/
def siOKLCHDecimal (cs : List Char) : Option ColorInput :=
  (matchOKLCHDecimal cs).map (fun t => ColorInput.OKLCH t.1 t.2.1 t.2.2.1 t.2.2.2)

/-- Decimal-lightness `oklch(... / a)` arm. -/
def siOKLCHDecimalSlash (cs : List Char) : Option ColorInput :=
  (matchOKLCHDecimalSlash cs).map (fun t => ColorInput.OKLCH t.1 t.2.1 t.2.2.1 t.2.2.2)

/-- `cmyk()` arm. -/
def siCMYK (cs : List Char) : Option ColorInput :=
  (matchCMYK cs).map (fun t => ColorInput.CMYK t.1 t.2.1 t.2.2.1 t.2.2.2.1 t.2.2.2.2)

/-- `cmyk(... / a)` arm. -/
def siCMYKSlash (cs : List Char) : Option ColorInput :=
  (matchCMYKSlash cs).map (fun t => ColorInput.CMYK t.1 t.2.1 t.2.2.1 t.2.2.2.1 t.2.2.2.2)

/-- `hsb()` arm (alias of HSV). -/
def siHSB (cs : List Char) : Option ColorInput :=
  (matchHSB cs).map (fun t => ColorInput.HSV (t.1 / 360) (t.2.1 / 100) (t.2.2 / 100))

/-- `hsba()` arm. -/
def siHSBA (cs : List Char) : Option ColorInput :=
  (matchHSBA cs).map (fun t => ColorInput.HSVA (t.1 / 360) (t.2.1 / 100) (t.2.2.1 / 100) t.2.2.2)

/-- `string_input_to_object` (`parse.rs`): trim and lowercase, try the name
table, then `"transparent"`, then every regex pattern in source order (the
first `some` wins, as in the source if-chain). -/
def string_input_to_object (color : String) : Option ColorInput :=
  let cs := (trimList color.data).map asciiLower
  let s := String.mk cs
  let fromName : Option ColorInput :=
    match lookupName s with
    | some hex => (parse_hex hex).map (fun t => ColorInput.NAME t.1 t.2.1 t.2.2)
    | none => none
  let fromTransparent : Option ColorInput :=
    if s = transparentStr then some (ColorInput.RGBA 0 0 0 0) else none
  List.findSome? (fun f => f)
    [fromName, fromTransparent,
     siHEX3 cs, siHEX6 cs, siHEX4 cs, siHEX8 cs,
     siRGB cs, siRGBPercent cs, siRGBA cs, siRGBAPercent cs,
     siHSL cs, siHSLSpace cs, siHSLA cs,
     siHSV cs, siHSVA cs,
     siLAB cs, siLABSlash cs, siLCH cs, siLCHSlash cs,
     siOKLAB cs, siOKLABSlash cs, siOKLCH cs, siOKLCHSlash cs,
     siOKLCHDecimal cs, siOKLCHDecimalSlash cs,
     siCMYK cs, siCMYKSlash cs,
     siHSB cs, siHSBA cs]

/-- `RGBInput` (`parse.rs`). -/
structure RGBInput where
  r : ℕ
  g : ℕ
  b : ℕ
  a : ℚ
  ok : Bool
  format : ColorFormat
  deriving DecidableEq, Repr

/-- `RGBInput::default` (`parse.rs`). -/
def RGBInput.default : RGBInput :=
  { r := 0, g := 0, b := 0, a := 1, ok := false, format := ColorFormat.INVALID }

/-- `input_to_rgb` (`parse.rs`): dispatch the parsed variant to RGB, clamp the
channels, and apply `bound_alpha`. -/
noncomputable def input_to_rgb (color : String) : RGBInput :=
  let rgb : RGBInput :=
    match string_input_to_object color with
    | none => RGBInput.default
    | some (ColorInput.RGB r g b) =>
        { RGBInput.default with
            r := r
            g := g
            b := b
            ok := true
            format := ColorFormat.RGB }
    | some (ColorInput.RGBA r g b a) =>
        { RGBInput.default with
            r := r
            g := g
            b := b
            a := a
            ok := true
            format := ColorFormat.RGB }
    | some (ColorInput.HSL h s l) =>
        let v := hsl_to_rgb h s l
        { RGBInput.default with
            r := v.r
            g := v.g
            b := v.b
            ok := true
            format := ColorFormat.HSL }
    | some (ColorInput.HSLA h s l a) =>
        let v := hsl_to_rgb h s l
        { RGBInput.default with
            r := v.r
            g := v.g
            b := v.b
            a := a
            ok := true
            format := ColorFormat.HSL }
    | some (ColorInput.HSV h s v) =>
        let w := hsv_to_rgb h s v
        { RGBInput.default with
            r := w.r
            g := w.g
            b := w.b
            ok := true
            format := ColorFormat.HSV }
    | some (ColorInput.HSVA h s v a) =>
        let w := hsv_to_rgb h s v
        { RGBInput.default with
            r := w.r
            g := w.g
            b := w.b
            a := a
            ok := true
            format := ColorFormat.HSV }
    | some (ColorInput.HEX r g b) =>
        { RGBInput.default with
            r := r
            g := g
            b := b
            ok := true
            format := ColorFormat.HEX }
    | some (ColorInput.HEX8 r g b a) =>
        { RGBInput.default with
            r := r
            g := g
            b := b
            a := a
            ok := true
            format := ColorFormat.HEX8 }
    | some (ColorInput.NAME r g b) =>
        { RGBInput.default with
            r := r
            g := g
            b := b
            ok := true
            format := ColorFormat.NAME }
    | some (ColorInput.LAB l a b alpha) =>
        let t := xyz_d65_to_rgb (xyz_d50_to_xyz_d65 (lab_to_xyz_d50
          { l := (l : ℝ), a := (a : ℝ), b := (b : ℝ), alpha := alpha }))
        { RGBInput.default with
            r := t.1
            g := t.2.1
            b := t.2.2.1
            a := t.2.2.2
            ok := true
            format := ColorFormat.LAB }
    | some (ColorInput.LCH l c h alpha) =>
        let t := lch_to_rgb { l := (l : ℝ), c := (c : ℝ), h := (h : ℝ), alpha := alpha }
        { RGBInput.default with
            r := t.1
            g := t.2.1
            b := t.2.2.1
            a := t.2.2.2
            ok := true
            format := ColorFormat.LCH }
    | some (ColorInput.OKLAB l a b alpha) =>
        let t := oklab_to_rgb { l := (l : ℝ), a := (a : ℝ), b := (b : ℝ), alpha := alpha }
        { RGBInput.default with
            r := t.1
            g := t.2.1
            b := t.2.2.1
            a := t.2.2.2
            ok := true
            format := ColorFormat.OKLAB }
    | some (ColorInput.OKLCH l c h alpha) =>
        let t := oklch_to_rgb { l := (l : ℝ), c := (c : ℝ), h := (h : ℝ), alpha := alpha }
        { RGBInput.default with
            r := t.1
            g := t.2.1
            b := t.2.2.1
            a := t.2.2.2
            ok := true
            format := ColorFormat.OKLCH }
    | some (ColorInput.CMYK c m y k alpha) =>
        let t := cmyk_to_rgb { c := c, m := m, y := y, k := k, a := alpha }
        { RGBInput.default with
            r := t.1
            g := t.2.1
            b := t.2.2.1
            a := t.2.2.2
            ok := true
            format := ColorFormat.CMYK }
  { rgb with
    r := min rgb.r 255
    g := min rgb.g 255
    b := min rgb.b 255
    a := bound_alpha rgb.a }

/-! ### The canonical color type (`lib.rs`) -/

/-- `BigColor` (`lib.rs`): OKLCH foundation plus input bookkeeping. -/
structure BigColor where
  oklch : OKLCH
  original_input : String
  format : ColorFormat
  ok : Bool

/-- `BigColor::default` (`lib.rs`): the sentinel invalid color. -/
noncomputable def BigColor.default : BigColor :=
  { oklch := { l := 0, c := 0, h := 0, alpha := 1 }
    original_input := (r"")
    format := ColorFormat.INVALID
    ok := false }

/-- `BigColor::new` (`lib.rs`): parse, and on failure return the default
invalid color instead of an error. -/
noncomputable def BigColor.new (color : String) : BigColor :=
  if color.isEmpty then BigColor.default
  else
    let rgb := input_to_rgb color
    if rgb.ok = false then BigColor.default
    else
      { oklch := rgb_to_oklch rgb.r rgb.g rgb.b rgb.a
        original_input := color
        format := rgb.format
        ok := rgb.ok }

/-- `BigColor::is_valid` (`lib.rs`). -/
def BigColor.is_valid (c : BigColor) : Bool := c.ok

/-- `BigColor::get_alpha` (`lib.rs`). -/
def BigColor.get_alpha (c : BigColor) : ℚ := c.oklch.alpha

/-- `BigColor::set_alpha` (`lib.rs`). -/
def BigColor.set_alpha (c : BigColor) (value : ℚ) : BigColor :=
  { c with oklch := { c.oklch with alpha := bound_alpha value } }

/-- `BigColor::to_oklch` (`lib.rs`). -/
def BigColor.to_oklch (c : BigColor) : OKLCH := c.oklch

/-- `BigColor::to_rgb` (`lib.rs`). -/
noncomputable def BigColor.to_rgb (c : BigColor) : RGB :=
  let t := oklch_to_rgb c.oklch
  { r := t.1, g := t.2.1, b := t.2.2.1, a := t.2.2.2 }

/-- The per-channel expression of `BigColor::to_percentage_rgb` (`lib.rs`):
`(bound_01(channel as f32, 255.0) * 100.0).round()`. -/
def percentChannel (v : ℕ) : ℚ :=
  ((rustRound (bound_01 (v : ℚ) 255 * 100) : ℤ) : ℚ)

/-- `BigColor::to_percentage_rgb` (`lib.rs`). -/
noncomputable def BigColor.to_percentage_rgb (c : BigColor) : PercentageRGB :=
  let rgb := c.to_rgb
  { r := percentChannel rgb.r
    g := percentChannel rgb.g
    b := percentChannel rgb.b
    a := rgb.a }

/-- `BigColor::lighten` (`lib.rs`): clamped addition on OKLCH lightness. -/
noncomputable def BigColor.lighten (c : BigColor) (amount : Option ℝ) : BigColor :=
  let amount := amount.getD 10
  { c with oklch := { c.oklch with l := max (min (c.oklch.l + amount / 100) 1) 0 } }

/-- `BigColor::darken` (`lib.rs`). -/
noncomputable def BigColor.darken (c : BigColor) (amount : Option ℝ) : BigColor :=
  let amount := amount.getD 10
  { c with oklch := { c.oklch with l := max (min (c.oklch.l - amount / 100) 1) 0 } }

/-- `BigColor::desaturate` (`lib.rs`). -/
noncomputable def BigColor.desaturate (c : BigColor) (amount : Option ℝ) : BigColor :=
  let amount := amount.getD 10
  { c with oklch := { c.oklch with c := max (c.oklch.c - amount / 100) 0 } }

/-- `BigColor::saturate` (`lib.rs`). -/
noncomputable def BigColor.saturate (c : BigColor) (amount : Option ℝ) : BigColor :=
  let amount := amount.getD 10
  { c with oklch := { c.oklch with c := c.oklch.c + amount / 100 } }

/-- `BigColor::greyscale` (`lib.rs`). -/
noncomputable def BigColor.greyscale (c : BigColor) : BigColor :=
  { c with oklch := { c.oklch with c := 0 } }

/-- `BigColor::spin` (`lib.rs`): hue rotation with wraparound. -/
noncomputable def BigColor.spin (c : BigColor) (amount : ℝ) : BigColor :=
  let h := rustRem (c.oklch.h + amount) 360
  let h := if h < 0 then h + 360 else h
  { c with oklch := { c.oklch with h := h } }

/-- The per-channel expression of `BigColor::brighten` (`lib.rs`). -/
noncomputable def brightenChannel (x : ℝ) : ℕ :=
  (min (max (rustRoundR x) 0) 255).toNat

/-- `BigColor::brighten` (`lib.rs`): round-trips through RGB. -/
noncomputable def BigColor.brighten (c : BigColor) (amount : Option ℝ) : BigColor :=
  let amount := amount.getD 10
  let t := oklch_to_rgb c.oklch
  let rN := brightenChannel ((t.1 : ℝ) - 255 * -(amount / 100))
  let gN := brightenChannel ((t.2.1 : ℝ) - 255 * -(amount / 100))
  let bN := brightenChannel ((t.2.2.1 : ℝ) - 255 * -(amount / 100))
  { c with oklch := rgb_to_oklch rN gN bN t.2.2.2 }

/-- `BigColor::monochromatic` (`lib.rs`): lightness sweep from 0 in `1/n`
steps (the accumulated `l` after `i` additions of `step` is `i * step`). -/
noncomputable def BigColor.monochromatic (c : BigColor) (results : Option ℕ) : List BigColor :=
  let results := results.getD 6
  let step : ℝ := 1 / results
  (List.range results).map (fun (i : ℕ) =>
    { c with oklch := { c.oklch with l := min ((i : ℝ) * step) 1 } })

/-- `BigColor::polyad` (`lib.rs`): `none` models the `panic!` on `number == 0`;
otherwise the original color followed by `number - 1` hue rotations. -/
noncomputable def BigColor.polyad (c : BigColor) (number : ℕ) : Option (List BigColor) :=
  if number = 0 then none
  else
    let step : ℝ := 360 / (number : ℝ)
    some (c :: (List.range (number - 1)).map (fun (i : ℕ) =>
      { c with oklch :=
          { c.oklch with h := rustRem (c.oklch.h + ((i : ℝ) + 1) * step) 360 } }))

/-- `BigColor::triad` (`lib.rs`). -/
noncomputable def BigColor.triad (c : BigColor) : Option (List BigColor) := c.polyad 3

/-- `BigColor::tetrad` (`lib.rs`). -/
noncomputable def BigColor.tetrad (c : BigColor) : Option (List BigColor) := c.polyad 4

/-- `BigColor::from_oklch` (`lib.rs`): stores its arguments directly, with no
normalisation of hue or alpha. -/
noncomputable def BigColor.from_oklch (l c h : ℝ) (a : ℚ) : BigColor :=
  { BigColor.default with
      oklch := { l := l, c := c, h := h, alpha := a }
      ok := true
      format := ColorFormat.OKLCH }

/-- The hue/alpha invariant of the data-model section of the spec:
hue normalized into `[0,360)`, alpha clamped into `[0,1]`. -/
def hueAlphaInv (c : BigColor) : Prop :=
  0 ≤ c.oklch.h ∧ c.oklch.h < 360 ∧ 0 ≤ c.oklch.alpha ∧ c.oklch.alpha ≤ 1

/-! ### Helper lemmas -/

theorem rustTrunc_cases (t : ℝ) : ∃ k : ℤ, rustTrunc t = (k : ℝ) := by
  unfold rustTrunc
  by_cases h : 0 ≤ t
  · exact ⟨⌊t⌋, by simp [h]⟩
  · exact ⟨⌈t⌉, by simp [h]⟩

theorem sub_rustTrunc_nonneg_of_nonneg {t : ℝ} (h : 0 ≤ t) : 0 ≤ t - rustTrunc t := by
  unfold rustTrunc
  simp only [h, if_true]
  have := Int.floor_le t
  linarith

theorem sub_rustTrunc_lt_one_of_nonneg {t : ℝ} (h : 0 ≤ t) : t - rustTrunc t < 1 := by
  unfold rustTrunc
  simp only [h, if_true]
  have := Int.lt_floor_add_one t
  linarith

theorem sub_rustTrunc_nonpos_of_neg {t : ℝ} (h : t < 0) : t - rustTrunc t ≤ 0 := by
  unfold rustTrunc
  simp only [not_le.mpr h, if_false]
  have := Int.le_ceil t
  linarith

theorem sub_rustTrunc_gt_neg_one_of_neg {t : ℝ} (h : t < 0) : -1 < t - rustTrunc t := by
  unfold rustTrunc
  simp only [not_le.mpr h, if_false]
  have := Int.ceil_lt_add_one t
  linarith

theorem rustRem_eq_mul {x y : ℝ} (hy : y ≠ 0) :
    rustRem x y = y * (x / y - rustTrunc (x / y)) := by
  unfold rustRem
  field_simp

theorem rustRem_lt {x y : ℝ} (hy : 0 < y) : rustRem x y < y := by
  rw [rustRem_eq_mul hy.ne']
  by_cases h : 0 ≤ x / y
  · have := sub_rustTrunc_lt_one_of_nonneg h
    nlinarith
  · have := sub_rustTrunc_nonpos_of_neg (not_le.mp h)
    nlinarith

theorem neg_lt_rustRem {x y : ℝ} (hy : 0 < y) : -y < rustRem x y := by
  rw [rustRem_eq_mul hy.ne']
  by_cases h : 0 ≤ x / y
  · have := sub_rustTrunc_nonneg_of_nonneg h
    nlinarith
  · have := sub_rustTrunc_gt_neg_one_of_neg (not_le.mp h)
    nlinarith

theorem rustRem_sub_int (x y : ℝ) : ∃ k : ℤ, rustRem x y = x - y * k := by
  obtain ⟨k, hk⟩ := rustTrunc_cases (x / y)
  exact ⟨k, by rw [rustRem, hk]⟩

theorem constrain_angle_mem (x : ℝ) :
    0 ≤ constrain_angle x ∧ constrain_angle x < 360 := by
  unfold constrain_angle
  have h1 := rustRem_lt (x := x) (y := 360) (by norm_num)
  have h2 := neg_lt_rustRem (x := x) (y := 360) (by norm_num)
  by_cases h : rustRem x 360 < 0
  · simp only [h, if_true]
    constructor <;> linarith
  · simp only [h, if_false]
    constructor <;> linarith

theorem constrain_angle_add_int (x : ℝ) :
    ∃ k : ℤ, constrain_angle x = x + 360 * k := by
  obtain ⟨k, hk⟩ := rustRem_sub_int x 360
  unfold constrain_angle
  by_cases h : rustRem x 360 < 0
  · refine ⟨-k + 1, ?_⟩
    simp only [h, if_true]
    rw [hk]
    push_cast
    ring
  · refine ⟨-k, ?_⟩
    simp only [h, if_false]
    rw [hk]
    push_cast
    ring

theorem angle_eq_of_mem_of_sub_int {a b : ℝ} (ha0 : 0 ≤ a) (ha1 : a < 360)
    (hb0 : 0 ≤ b) (hb1 : b < 360) (k : ℤ) (h : a = b + 360 * k) : a = b := by
  have hk1 : (k : ℝ) < 1 := by nlinarith
  have hk2 : (-1 : ℝ) < k := by nlinarith
  have hk1' : k < 1 := by exact_mod_cast hk1
  have hk2' : -1 < k := by exact_mod_cast hk2
  have : k = 0 := by omega
  rw [this] at h
  simpa using h

theorem bound_alpha_mem (a : ℚ) : 0 ≤ bound_alpha a ∧ bound_alpha a ≤ 1 := by
  unfold bound_alpha
  by_cases h : a < 0 ∨ 1 < a
  · simp [h]
  · rw [if_neg h]
    push_neg at h
    exact h

theorem rgb_to_oklch_alpha (r g b : ℕ) (a : ℚ) : (rgb_to_oklch r g b a).alpha = a := rfl

theorem oklab_to_oklch_h_mem (ok : OKLab) :
    0 ≤ (oklab_to_oklch ok).h ∧ (oklab_to_oklch ok).h < 360 := by
  unfold oklab_to_oklch
  by_cases h : |ok.a| < 1e-10 ∧ |ok.b| < 1e-10
  · simp only [h, if_true]
    norm_num
  · simp only [h, if_false]
    exact constrain_angle_mem _

theorem rgb_to_oklch_h_mem (r g b : ℕ) (a : ℚ) :
    0 ≤ (rgb_to_oklch r g b a).h ∧ (rgb_to_oklch r g b a).h < 360 :=
  oklab_to_oklch_h_mem _

theorem castU8_eq {x : ℚ} {n : ℕ} (hn : n ≤ 255) (h1 : (n : ℚ) ≤ x) (h2 : x < n + 1) :
    castU8 x = n := by
  have hf : ⌊x⌋ = (n : ℤ) := by
    rw [Int.floor_eq_iff]
    refine ⟨by exact_mod_cast h1, ?_⟩
    push_cast
    exact h2
  simp [castU8, hf, hn]

theorem rustRound_of_nonneg {x : ℚ} (h : 0 ≤ x) : rustRound x = ⌊x + 1/2⌋ := by
  unfold rustRound
  simp [not_lt.mpr h]

theorem roundU8_eq {x : ℚ} {n : ℕ} (hn : n ≤ 255) (h0 : 0 ≤ x)
    (h1 : (n : ℚ) ≤ x + 1/2) (h2 : x + 1/2 < n + 1) : roundU8 x = n := by
  have hf : ⌊x + 1/2⌋ = (n : ℤ) := by
    rw [Int.floor_eq_iff]
    refine ⟨by exact_mod_cast h1, ?_⟩
    push_cast
    exact h2
  rw [roundU8, rustRound_of_nonneg h0, hf]
  simp [hn]

theorem oklch_to_rgb_alpha (ok : OKLCH) : (oklch_to_rgb ok).2.2.2 = ok.alpha := rfl

theorem input_to_rgb_a_mem (s : String) :
    0 ≤ (input_to_rgb s).a ∧ (input_to_rgb s).a ≤ 1 :=
  bound_alpha_mem _

theorem is_one_point_zero_iff (n : ℚ) : is_one_point_zero n ↔ |n| - 1 < f32EPSILON := by
  simp [is_one_point_zero]

theorem is_percentage_iff (n : ℚ) : is_percentage n ↔ 0 ≤ n ∧ n ≤ 100 := by
  simp [is_percentage]

theorem bound_01_eval (v : ℕ) (hv : v ≤ 255) :
    bound_01 (v : ℚ) 255 =
      if v ≤ 1 then 1 else if v ≤ 100 then (v : ℚ) / 100 else (v : ℚ) / 255 := by
  by_cases h1 : v ≤ 1
  · have hz : is_one_point_zero (v : ℚ) := by
      rw [is_one_point_zero_iff]
      unfold f32EPSILON
      interval_cases v <;> norm_num
    rw [bound_01, if_pos hz, if_pos h1]
  · have h2 : (2 : ℚ) ≤ (v : ℚ) := by exact_mod_cast Nat.succ_le_of_lt (Nat.lt_of_not_le h1)
    have hz : ¬ is_one_point_zero (v : ℚ) := by
      rw [is_one_point_zero_iff]
      unfold f32EPSILON
      rw [abs_of_nonneg (by positivity)]
      norm_num
      linarith
    rw [bound_01, if_neg hz, if_neg h1]
    by_cases h3 : v ≤ 100
    · have hp : is_percentage (v : ℚ) := by
        rw [is_percentage_iff]
        exact ⟨by positivity, by exact_mod_cast h3⟩
      have h100 : ((v : ℚ) / 100 * 255) ≤ 255 := by
        have : (v : ℚ) ≤ 100 := by exact_mod_cast h3
        nlinarith
      have h0 : (0 : ℚ) ≤ (v : ℚ) / 100 * 255 := by positivity
      simp only [hp, if_true, if_pos h3]
      rw [min_eq_left h100, max_eq_left h0]
      field_simp
      ring
    · have hp : ¬ is_percentage (v : ℚ) := by
        rw [is_percentage_iff]
        push_neg
        intro _
        have : (100 : ℚ) < (v : ℚ) := by exact_mod_cast Nat.lt_of_not_le h3
        linarith
      have hle : (v : ℚ) ≤ 255 := by exact_mod_cast hv
      have h0 : (0 : ℚ) ≤ (v : ℚ) := by positivity
      simp only [hp, if_neg h3]
      norm_num [min_eq_left hle, max_eq_left h0]

/-- C6: for every real angle θ, `constrain_angle θ` lies in `[0, 360)`, and
`constrain_angle` is invariant under adding a full turn. -/
theorem constrain_angle_range_periodic (θ : ℝ) :
    (0 ≤ constrain_angle θ ∧ constrain_angle θ < 360) ∧
    constrain_angle (θ + 360) = constrain_angle θ := by
  refine ⟨constrain_angle_mem θ, ?_⟩
  obtain ⟨k1, h1⟩ := constrain_angle_add_int (θ + 360)
  obtain ⟨k2, h2⟩ := constrain_angle_add_int θ
  obtain ⟨a1, b1⟩ := constrain_angle_mem (θ + 360)
  obtain ⟨a2, b2⟩ := constrain_angle_mem θ
  refine angle_eq_of_mem_of_sub_int a1 b1 a2 b2 (k1 + 1 - k2) ?_
  rw [h1, h2]
  push_cast
  ring

theorem polyad_pos (c : BigColor) (n : ℕ) (h : n ≠ 0) :
    c.polyad n = some (c :: (List.range (n - 1)).map (fun (i : ℕ) =>
      { c with oklch := { c.oklch with
          h := rustRem (c.oklch.h + ((i : ℝ) + 1) * (360 / (n : ℝ))) 360 } })) := by
  simp [BigColor.polyad, h]

theorem monochromatic_eq (c : BigColor) (n : ℕ) :
    c.monochromatic (some n) = (List.range n).map (fun (i : ℕ) =>
      { c with oklch := { c.oklch with l := min ((i : ℝ) * (1 / (n : ℝ))) 1 } }) := by
  simp [BigColor.monochromatic]

/-- C9: `triad` returns exactly 3 colors with the original first, `tetrad`
exactly 4, `monochromatic(5)` exactly 5 with the first at lightness 0, and
`polyad(0)` fails fast (modelled as `none` for the source `panic!`). -/
theorem scheme_cardinalities (c : BigColor) :
    (∃ L, c.triad = some L ∧ L.length = 3 ∧ L.head? = some c) ∧
    (∃ L, c.tetrad = some L ∧ L.length = 4 ∧ L.head? = some c) ∧
    (c.monochromatic (some 5)).length = 5 ∧
    ((c.monochromatic (some 5)).head?.map (fun d => d.oklch.l)) = some 0 ∧
    c.polyad 0 = none := by
  refine ⟨⟨_, polyad_pos c 3 (by norm_num), ?_, rfl⟩,
    ⟨_, polyad_pos c 4 (by norm_num), ?_, rfl⟩, ?_, ?_, ?_⟩
  · simp
  · simp
  · rw [monochromatic_eq]
    simp
  · rw [monochromatic_eq]
    have hr : List.range 5 = [0, 1, 2, 3, 4] := rfl
    simp [hr]
  · simp [BigColor.polyad]

/-- C5: the string constructor never propagates an error: whenever parsing
fails it returns the sentinel invalid color (OKLCH `(0,0,0)`, alpha 1,
`is_valid = false`); in particular on `"not-a-color"`. -/
theorem new_invalid_input_sentinel :
    BigColor.new (r"not-a-color") = BigColor.default ∧
    (BigColor.new (r"not-a-color")).is_valid = false ∧
    (BigColor.new (r"not-a-color")).oklch = { l := 0, c := 0, h := 0, alpha := 1 } ∧
    ∀ s : String, (input_to_rgb s).ok = false → BigColor.new s = BigColor.default := by
  have hmain : BigColor.new (r"not-a-color") = BigColor.default := by rfl
  refine ⟨hmain, by rw [hmain]; rfl, by rw [hmain]; rfl, ?_⟩
  intro s hs
  unfold BigColor.new
  by_cases he : s.isEmpty
  · simp [he]
  · simp [he, hs]

/-- C5 witness: the sentinel behaviour of the constructor at a concrete
unparsable string. -/
theorem new_invalid_input_sentinel_witness :
    BigColor.new (r"definitely not a color") = BigColor.default :=
  new_invalid_input_sentinel.2.2.2 (r"definitely not a color") (by decide)

/-- C3 counterexample: `parse("rgba(255,0,0,garbage)")` does not succeed with
alpha 1.0 — the RGBA pattern cannot match a non-numeric alpha, so the whole
parse fails and the constructor yields the invalid sentinel. -/
theorem rgba_garbage_parse_fails :
    string_input_to_object (r"rgba(255,0,0,garbage)") = none ∧
    (input_to_rgb (r"rgba(255,0,0,garbage)")).ok = false ∧
    (BigColor.new (r"rgba(255,0,0,garbage)")).is_valid = false := by
  refine ⟨by decide, by decide, ?_⟩
  have h : BigColor.new (r"rgba(255,0,0,garbage)") = BigColor.default := by rfl
  rw [h]
  rfl

/-- C3 amended: an alpha component that matches the numeric pattern
`[01]?\.?\d*` but fails the `f32` parse (for example `"."`) is silently
replaced by `1.0`, and an out-of-range alpha (for example `1.5`) is coerced
to `1.0` by `bound_alpha` — in both cases the parse succeeds with
`(255,0,0)`; only a non-numeric alpha such as `"garbage"` makes the whole
parse fail. -/
theorem rgba_alpha_leniency_amended :
    input_to_rgb (r"rgba(255,0,0,.)") =
      { r := 255, g := 0, b := 0, a := 1, ok := true, format := ColorFormat.RGB } ∧
    input_to_rgb (r"rgba(255,0,0,1.5)") =
      { r := 255, g := 0, b := 0, a := 1, ok := true, format := ColorFormat.RGB } := by
  constructor
  · decide
  · have hso : string_input_to_object (r"rgba(255,0,0,1.5)") =
        some (ColorInput.RGBA 255 0 0 ((1 : ℚ) + 5 / 10 ^ 1)) := by rfl
    simp only [input_to_rgb, hso]
    norm_num [RGBInput.default, bound_alpha]

/-- C8: `rgb_to_cmyk(0,0,0,1)` yields `k = 100%` and `c = m = y = 0%`; in
general `k = (1 - max(r,g,b)) * 100`, the `k == 1` guard returns 0 for the
other components, and otherwise they follow `(1 - channel - k)/(1 - k)`. -/
theorem cmyk_black_degeneracy :
    rgb_to_cmyk 0 0 0 1 = { c := 0, m := 0, y := 0, k := 100, a := 1 } ∧
    (∀ (r g b : ℕ) (a : ℚ), (rgb_to_cmyk r g b a).k =
      (1 - max (max ((r : ℚ) / 255) ((g : ℚ) / 255)) ((b : ℚ) / 255)) * 100) ∧
    (∀ (r g b : ℕ) (a : ℚ),
      1 - max (max ((r : ℚ) / 255) ((g : ℚ) / 255)) ((b : ℚ) / 255) = 1 →
      (rgb_to_cmyk r g b a).c = 0 ∧ (rgb_to_cmyk r g b a).m = 0 ∧
        (rgb_to_cmyk r g b a).y = 0) ∧
    (∀ (r g b : ℕ) (a : ℚ),
      1 - max (max ((r : ℚ) / 255) ((g : ℚ) / 255)) ((b : ℚ) / 255) ≠ 1 →
      (rgb_to_cmyk r g b a).c =
        (1 - (r : ℚ) / 255 -
            (1 - max (max ((r : ℚ) / 255) ((g : ℚ) / 255)) ((b : ℚ) / 255))) /
          (1 - (1 - max (max ((r : ℚ) / 255) ((g : ℚ) / 255)) ((b : ℚ) / 255))) * 100) := by
  refine ⟨?_, fun r g b a => rfl, fun r g b a h => ?_, fun r g b a h => ?_⟩
  · simp only [rgb_to_cmyk]
    norm_num
  · simp only [rgb_to_cmyk, if_pos h]
    norm_num
  · simp only [rgb_to_cmyk, if_neg h]

/-- C8 witness: the guard case applied at pure black. -/
theorem cmyk_black_degeneracy_witness :
    (rgb_to_cmyk 0 0 0 1).c = 0 ∧ (rgb_to_cmyk 0 0 0 1).m = 0 ∧
      (rgb_to_cmyk 0 0 0 1).y = 0 :=
  cmyk_black_degeneracy.2.2.1 0 0 0 1 (by norm_num)

/-- C7 (evaluation of the code at the claimed inputs): `rgb_to_hsl(128,128,128)`
does yield saturation 0, but the gray round-trip is broken: because
`is_one_point_zero` computes `n.abs() - 1.0 < EPSILON`, `bound_01` maps channel
0 to `1.0`, so `rgb_to_hsl(0,0,0)` has lightness 1 and converting back gives
`(255,255,255)` instead of `(0,0,0)`. -/
theorem achromatic_gray_evaluation :
    (rgb_to_hsl 128 128 128).s = 0 ∧
    rgb_to_hsl 0 0 0 = { h := 0, s := 0, l := 1, a := 1 } ∧
    hsl_to_rgb (rgb_to_hsl 0 0 0).h (rgb_to_hsl 0 0 0).s (rgb_to_hsl 0 0 0).l =
      { r := 255, g := 255, b := 255, a := 1 } := by
  have hb0 : bound_01 (0 : ℚ) 255 = 1 := by
    have h := bound_01_eval 0 (by norm_num)
    norm_num at h
    exact h
  have hb128 : bound_01 (128 : ℚ) 255 = 128 / 255 := by
    have h := bound_01_eval 128 (by norm_num)
    norm_num at h
    exact h
  have h128 : rgb_to_hsl 128 128 128 = { h := 0, s := 0, l := 128 / 255, a := 1 } := by
    norm_num [rgb_to_hsl, hb128]
  have h000 : rgb_to_hsl 0 0 0 = { h := 0, s := 0, l := 1, a := 1 } := by
    norm_num [rgb_to_hsl, hb0]
  refine ⟨by rw [h128], h000, ?_⟩
  rw [h000]
  norm_num [hsl_to_rgb, castU8]

/-- C10: `bound_01(v, 255)` returns 1 for `v ≤ 1`, treats `2 ≤ v ≤ 100` as a
percentage (`v/100`), and only divides by 255 for `v ≥ 101`; consequently the
percentage-RGB channel formula reports channel 0 as 100% and channel 50 as
50%. -/
theorem bound01_percentage_heuristic :
    (∀ v : ℕ, v ≤ 255 →
      bound_01 (v : ℚ) 255 =
        if v ≤ 1 then 1 else if v ≤ 100 then (v : ℚ) / 100 else (v : ℚ) / 255) ∧
    percentChannel 0 = 100 ∧ percentChannel 50 = 50 ∧
    ∀ c : BigColor,
      c.to_percentage_rgb.r = percentChannel c.to_rgb.r ∧
      c.to_percentage_rgb.g = percentChannel c.to_rgb.g ∧
      c.to_percentage_rgb.b = percentChannel c.to_rgb.b := by
  refine ⟨bound_01_eval, ?_, ?_, fun c => ⟨rfl, rfl, rfl⟩⟩
  · have h0 : bound_01 (0 : ℚ) 255 = 1 := by
      have h := bound_01_eval 0 (by norm_num)
      norm_num at h
      exact h
    rw [percentChannel]
    norm_num [h0, rustRound]
  · have h50 : bound_01 (50 : ℚ) 255 = 1 / 2 := by
      have h := bound_01_eval 50 (by norm_num)
      norm_num at h
      exact h
    rw [percentChannel]
    norm_num [h50, rustRound]

/-- C10 witness: the `bound_01` trichotomy applied at the concrete channel
value 200. -/
theorem bound01_percentage_heuristic_witness :
    bound_01 ((200 : ℕ) : ℚ) 255 =
      if (200 : ℕ) ≤ 1 then 1
      else if (200 : ℕ) ≤ 100 then ((200 : ℕ) : ℚ) / 100 else ((200 : ℕ) : ℚ) / 255 :=
  bound01_percentage_heuristic.1 200 (by norm_num)

/-- C4 counterexample: `from_oklch` stores hue and alpha without any
normalisation, so `from_oklch(0.5, 0.1, 400.0, 2.0)` violates the claimed
invariant (hue 400 ∉ [0,360), alpha 2 ∉ [0,1]). -/
theorem from_oklch_unnormalized :
    ¬ hueAlphaInv (BigColor.from_oklch 0.5 0.1 400 2) := by
  intro h
  have hh : (BigColor.from_oklch 0.5 0.1 400 2).oklch.h = 400 := rfl
  have := h.2.1
  rw [hh] at this
  norm_num at this

/-- C4 amended: colors produced by the string constructor satisfy the
hue/alpha invariant (hue in `[0,360)`, alpha in `[0,1]`, out-of-range alpha
coerced to 1 by `bound_alpha`), and every mutating operation preserves it;
`from_oklch`, however, stores its arguments unnormalised. -/
theorem hue_alpha_invariant_amended :
    (∀ s : String, hueAlphaInv (BigColor.new s)) ∧
    (∀ (c : BigColor) (v : ℚ), hueAlphaInv c → hueAlphaInv (c.set_alpha v)) ∧
    (∀ (c : BigColor) (amt : Option ℝ), hueAlphaInv c → hueAlphaInv (c.lighten amt)) ∧
    (∀ (c : BigColor) (amt : Option ℝ), hueAlphaInv c → hueAlphaInv (c.darken amt)) ∧
    (∀ (c : BigColor) (amt : Option ℝ), hueAlphaInv c → hueAlphaInv (c.saturate amt)) ∧
    (∀ (c : BigColor) (amt : Option ℝ), hueAlphaInv c → hueAlphaInv (c.desaturate amt)) ∧
    (∀ c : BigColor, hueAlphaInv c → hueAlphaInv c.greyscale) ∧
    (∀ (c : BigColor) (amt : ℝ), hueAlphaInv c → hueAlphaInv (c.spin amt)) ∧
    (∀ (c : BigColor) (amt : Option ℝ), hueAlphaInv c → hueAlphaInv (c.brighten amt)) := by
  have hdef : hueAlphaInv BigColor.default := by
    refine ⟨le_refl 0, ?_, ?_, le_refl 1⟩
    · show (0 : ℝ) < 360
      norm_num
    · show (0 : ℚ) ≤ 1
      norm_num
  refine ⟨?_, ?_, ?_, ?_, ?_, ?_, ?_, ?_, ?_⟩
  · intro s
    unfold BigColor.new
    by_cases he : s.isEmpty
    · simpa [he] using hdef
    · by_cases hok : (input_to_rgb s).ok = false
      · simpa [he, hok] using hdef
      · simp only [he, hok, if_false, Bool.false_eq_true]
        refine ⟨(rgb_to_oklch_h_mem _ _ _ _).1, (rgb_to_oklch_h_mem _ _ _ _).2, ?_, ?_⟩
        · exact (input_to_rgb_a_mem s).1
        · exact (input_to_rgb_a_mem s).2
  · intro c v h
    exact ⟨h.1, h.2.1, (bound_alpha_mem v).1, (bound_alpha_mem v).2⟩
  · intro c amt h
    exact ⟨h.1, h.2.1, h.2.2.1, h.2.2.2⟩
  · intro c amt h
    exact ⟨h.1, h.2.1, h.2.2.1, h.2.2.2⟩
  · intro c amt h
    exact ⟨h.1, h.2.1, h.2.2.1, h.2.2.2⟩
  · intro c amt h
    exact ⟨h.1, h.2.1, h.2.2.1, h.2.2.2⟩
  · intro c h
    exact ⟨h.1, h.2.1, h.2.2.1, h.2.2.2⟩
  · intro c amt h
    have h1 := rustRem_lt (x := c.oklch.h + amt) (y := 360) (by norm_num)
    have h2 := neg_lt_rustRem (x := c.oklch.h + amt) (y := 360) (by norm_num)
    refine ⟨?_, ?_, h.2.2.1, h.2.2.2⟩
    · show (0 : ℝ) ≤ if rustRem (c.oklch.h + amt) 360 < 0 then
          rustRem (c.oklch.h + amt) 360 + 360 else rustRem (c.oklch.h + amt) 360
      split_ifs with hn <;> linarith
    · show (if rustRem (c.oklch.h + amt) 360 < 0 then
          rustRem (c.oklch.h + amt) 360 + 360 else rustRem (c.oklch.h + amt) 360) < 360
      split_ifs with hn <;> linarith
  · intro c amt h
    refine ⟨(rgb_to_oklch_h_mem _ _ _ _).1, (rgb_to_oklch_h_mem _ _ _ _).2, ?_, ?_⟩
    · exact h.2.2.1
    · exact h.2.2.2

/-- C4 witness: the amended invariant applied concretely. -/
theorem hue_alpha_invariant_amended_witness :
    hueAlphaInv ((BigColor.new (r"red")).set_alpha 2) :=
  hue_alpha_invariant_amended.2.1 _ 2 (hue_alpha_invariant_amended.1 (r"red"))

theorem cbrt_nonneg_eq {x : ℝ} (hx : 0 ≤ x) : cbrt x = x ^ ((1 : ℝ) / 3) := by
  rw [cbrt, if_neg (not_lt.mpr hx)]

theorem le_cbrt {a x : ℝ} (ha : 0 ≤ a) (h : a ^ (3 : ℕ) ≤ x) : a ≤ cbrt x := by
  have hx : 0 ≤ x := le_trans (pow_nonneg ha 3) h
  rw [cbrt_nonneg_eq hx]
  have hb : ((a ^ (3 : ℕ) : ℝ)) ^ ((1 : ℝ) / 3) = a := by
    rw [← Real.rpow_natCast a 3, ← Real.rpow_mul ha]
    norm_num
  calc a = ((a ^ (3 : ℕ) : ℝ)) ^ ((1 : ℝ) / 3) := hb.symm
    _ ≤ x ^ ((1 : ℝ) / 3) := Real.rpow_le_rpow (pow_nonneg ha 3) h (by norm_num)

theorem cbrt_le {x b : ℝ} (hx : 0 ≤ x) (hb : 0 ≤ b) (h : x ≤ b ^ (3 : ℕ)) : cbrt x ≤ b := by
  rw [cbrt_nonneg_eq hx]
  have hbb : ((b ^ (3 : ℕ) : ℝ)) ^ ((1 : ℝ) / 3) = b := by
    rw [← Real.rpow_natCast b 3, ← Real.rpow_mul hb]
    norm_num
  calc x ^ ((1 : ℝ) / 3) ≤ ((b ^ (3 : ℕ) : ℝ)) ^ ((1 : ℝ) / 3) :=
        Real.rpow_le_rpow hx h (by norm_num)
    _ = b := hbb

theorem le_rpow_five_twelfths {q x : ℝ} (hq : 0 ≤ q) (hx : 0 ≤ x)
    (h : q ^ (12 : ℕ) ≤ x ^ (5 : ℕ)) : q ≤ x ^ ((1 : ℝ) / 2.4) := by
  have h512 : ((x ^ (5 : ℕ) : ℝ)) ^ ((1 : ℝ) / 12) = x ^ ((1 : ℝ) / 2.4) := by
    rw [← Real.rpow_natCast x 5, ← Real.rpow_mul hx]
    congr 1
    norm_num
  have hb : ((q ^ (12 : ℕ) : ℝ)) ^ ((1 : ℝ) / 12) = q := by
    rw [← Real.rpow_natCast q 12, ← Real.rpow_mul hq]
    norm_num
  calc q = ((q ^ (12 : ℕ) : ℝ)) ^ ((1 : ℝ) / 12) := hb.symm
    _ ≤ ((x ^ (5 : ℕ) : ℝ)) ^ ((1 : ℝ) / 12) :=
        Real.rpow_le_rpow (pow_nonneg hq 12) h (by norm_num)
    _ = x ^ ((1 : ℝ) / 2.4) := h512

theorem rpow_five_twelfths_le {x b : ℝ} (hx : 0 ≤ x) (hb : 0 ≤ b)
    (h : x ^ (5 : ℕ) ≤ b ^ (12 : ℕ)) : x ^ ((1 : ℝ) / 2.4) ≤ b := by
  have h512 : ((x ^ (5 : ℕ) : ℝ)) ^ ((1 : ℝ) / 12) = x ^ ((1 : ℝ) / 2.4) := by
    rw [← Real.rpow_natCast x 5, ← Real.rpow_mul hx]
    congr 1
    norm_num
  have hbb : ((b ^ (12 : ℕ) : ℝ)) ^ ((1 : ℝ) / 12) = b := by
    rw [← Real.rpow_natCast b 12, ← Real.rpow_mul hb]
    norm_num
  calc x ^ ((1 : ℝ) / 2.4) = ((x ^ (5 : ℕ) : ℝ)) ^ ((1 : ℝ) / 12) := h512.symm
    _ ≤ ((b ^ (12 : ℕ) : ℝ)) ^ ((1 : ℝ) / 12) :=
        Real.rpow_le_rpow (pow_nonneg hx 5) h (by norm_num)
    _ = b := hbb

theorem rustRoundR_of_nonneg {x : ℝ} (h : 0 ≤ x) : rustRoundR x = ⌊x + 1/2⌋ := by
  unfold rustRoundR
  simp [not_lt.mpr h]

theorem roundU8R_eq {x : ℝ} {n : ℕ} (hn : n ≤ 255) (h0 : 0 ≤ x)
    (h1 : (n : ℝ) ≤ x + 1/2) (h2 : x + 1/2 < n + 1) : roundU8R x = n := by
  have hf : ⌊x + 1/2⌋ = (n : ℤ) := by
    rw [Int.floor_eq_iff]
    refine ⟨by exact_mod_cast h1, ?_⟩
    push_cast
    exact h2
  rw [roundU8R, rustRoundR_of_nonneg h0, hf]
  simp [hn]

theorem roundU8R_zero_small {x : ℝ} (h1 : -(1/2 : ℝ) < x) (h2 : x < 1/2) :
    roundU8R x = 0 := by
  unfold roundU8R rustRoundR
  by_cases hx : x < 0
  · have hf : ⌊-x + 1/2⌋ = (0 : ℤ) := by
      rw [Int.floor_eq_iff]
      constructor
      · push_cast
        linarith
      · push_cast
        linarith
    rw [if_pos hx, hf]
    rfl
  · have hf : ⌊x + 1/2⌋ = (0 : ℤ) := by
      rw [Int.floor_eq_iff]
      constructor
      · push_cast
        linarith
      · push_cast
        linarith
    rw [if_neg hx, hf]
    rfl

theorem oklch_polar_roundtrip (L A B : ℝ) (alpha : ℚ) (hA : (1e-10 : ℝ) ≤ A) :
    oklch_to_oklab (oklab_to_oklch { l := L, a := A, b := B, alpha := alpha }) =
      { l := L, a := A, b := B, alpha := alpha } := by
  have hApos : 0 < A := lt_of_lt_of_le (by norm_num) hA
  have hG : ¬ (|A| < 1e-10 ∧ |B| < 1e-10) := by
    intro hg
    rw [abs_of_nonneg hApos.le] at hg
    linarith [hg.1]
  unfold oklab_to_oklch oklch_to_oklab
  dsimp only
  rw [if_neg hG]
  obtain ⟨k, hk⟩ := constrain_angle_add_int (atan2 B A * 180 / Real.pi)
  rw [hk]
  have hang : (atan2 B A * 180 / Real.pi + 360 * (k : ℝ)) * Real.pi / 180 =
      atan2 B A + (k : ℝ) * (2 * Real.pi) := by
    field_simp
    ring
  rw [hang, Real.cos_add_int_mul_two_pi, Real.sin_add_int_mul_two_pi]
  have hat : atan2 B A = Real.arctan (B / A) := by
    unfold atan2
    rw [if_pos hApos]
  rw [hat, Real.cos_arctan, Real.sin_arctan]
  have hsum : 0 < A ^ (2 : ℕ) + B ^ (2 : ℕ) := by positivity
  have hS : 0 < Real.sqrt (A ^ (2 : ℕ) + B ^ (2 : ℕ)) := Real.sqrt_pos.mpr hsum
  have hs : Real.sqrt (1 + (B / A) ^ 2) = Real.sqrt (A ^ (2 : ℕ) + B ^ (2 : ℕ)) / A := by
    have h1 : (1 + (B / A) ^ 2 : ℝ) = (A ^ (2 : ℕ) + B ^ (2 : ℕ)) / A ^ (2 : ℕ) := by
      field_simp
    rw [h1, Real.sqrt_div hsum.le, Real.sqrt_sq hApos.le]
  rw [hs]
  simp only [OKLab.mk.injEq]
  refine ⟨trivial, ?_, ?_, trivial⟩
  · field_simp
  · field_simp

set_option maxHeartbeats 3200000 in
theorem red_roundtrip : oklch_to_rgb (rgb_to_oklch 255 0 0 1) = (255, 0, 0, (1 : ℚ)) := by
  have h1 : srgb_to_linear (((255 : ℕ) : ℝ) / 255) = 1 := by
    rw [show (((255 : ℕ) : ℝ)) / 255 = 1 by norm_num, srgb_to_linear, if_neg (by norm_num)]
    rw [show ((1 : ℝ) + 0.055) / 1.055 = 1 by norm_num]
    exact Real.one_rpow _
  have h0 : srgb_to_linear (((0 : ℕ) : ℝ) / 255) = 0 := by
    rw [show (((0 : ℕ) : ℝ)) / 255 = 0 by norm_num, srgb_to_linear, if_pos (by norm_num)]
    norm_num
  have hx : rgb_to_xyz_d65 255 0 0 1 = { x := 0.4124564, y := 0.2126729, z := 0.0193339, a := 1 } := by
    simp only [rgb_to_xyz_d65, h1, h0]
    simp only [XyzD65.mk.injEq]
    norm_num
  rw [rgb_to_oklch, hx, oklch_to_rgb]
  simp only [xyz_d65_to_oklab, multiply_v3_m3x3, XYZ_TO_LMS_M, LMS_TO_LAB_M]
  set s1 : ℝ := cbrt (0.4124564 * 0.8190224379967030 + 0.2126729 * 0.3619062600528904 + 0.0193339 * -0.1288737815209879) with hs1
  set s2 : ℝ := cbrt (0.4124564 * 0.0329836539323885 + 0.2126729 * 0.9292868615863434 + 0.0193339 * 0.0361446663506424) with hs2
  set s3 : ℝ := cbrt (0.4124564 * 0.0481771893596242 + 0.2126729 * 0.2642395317527308 + 0.0193339 * 0.6335478284694309) with hs3
  have hu1 : (0.7442746674330652 : ℝ) ≤ s1 := by
    rw [hs1]
    exact le_cbrt (by norm_num) (by norm_num)
  have hu2 : s1 ≤ (0.7442746674330655 : ℝ) := by
    rw [hs1]
    exact cbrt_le (by norm_num) (by norm_num) (by norm_num)
  have hv1 : (0.5962143767251226 : ℝ) ≤ s2 := by
    rw [hs2]
    exact le_cbrt (by norm_num) (by norm_num)
  have hv2 : s2 ≤ (0.5962143767251229 : ℝ) := by
    rw [hs2]
    exact cbrt_le (by norm_num) (by norm_num) (by norm_num)
  have hw1 : (0.4453286768593273 : ℝ) ≤ s3 := by
    rw [hs3]
    exact le_cbrt (by norm_num) (by norm_num)
  have hw2 : s3 ≤ (0.4453286768593276 : ℝ) := by
    rw [hs3]
    exact cbrt_le (by norm_num) (by norm_num) (by norm_num)
  clear_value s1 s2 s3
  rw [oklch_polar_roundtrip (s1 * 0.2104542683093140 + s2 * 0.7936177747023054 + s3 * -0.0040720430116193) (s1 * 1.9779985324311684 + s2 * -2.4285922420485799 + s3 * 0.4505937096174110) (s1 * 0.0259040424655478 + s2 * 0.7827717124575296 + s3 * -0.8086757549230774) 1 (by linarith [hu1, hu2, hv1, hv2, hw1, hw2])]
  simp only [oklab_to_xyz_d65, xyz_d65_to_rgb, multiply_v3_m3x3, LAB_TO_LMS_M, LMS_TO_XYZ_M]
  have hP0lo : (0.744274667433064782 : ℝ) ≤ (s1 * 0.2104542683093140 + s2 * 0.7936177747023054 + s3 * -0.0040720430116193) * 1.0000000000000000 + (s1 * 1.9779985324311684 + s2 * -2.4285922420485799 + s3 * 0.4505937096174110) * 0.3963377773761749 + (s1 * 0.0259040424655478 + s2 * 0.7827717124575296 + s3 * -0.8086757549230774) * 0.2158037573099136 := by linarith [hu1, hu2, hv1, hv2, hw1, hw2]
  have hP0hi : ((s1 * 0.2104542683093140 + s2 * 0.7936177747023054 + s3 * -0.0040720430116193) * 1.0000000000000000 + (s1 * 1.9779985324311684 + s2 * -2.4285922420485799 + s3 * 0.4505937096174110) * 0.3963377773761749 + (s1 * 0.0259040424655478 + s2 * 0.7827717124575296 + s3 * -0.8086757549230774) * 0.2158037573099136) ≤ (0.744274667433065768 : ℝ) := by linarith [hu1, hu2, hv1, hv2, hw1, hw2]
  have hP0nn : (0 : ℝ) ≤ (s1 * 0.2104542683093140 + s2 * 0.7936177747023054 + s3 * -0.0040720430116193) * 1.0000000000000000 + (s1 * 1.9779985324311684 + s2 * -2.4285922420485799 + s3 * 0.4505937096174110) * 0.3963377773761749 + (s1 * 0.0259040424655478 + s2 * 0.7827717124575296 + s3 * -0.8086757549230774) * 0.2158037573099136 := by linarith [hP0lo]
  have hC0lo : (0.412287067344396047 : ℝ) ≤ ((s1 * 0.2104542683093140 + s2 * 0.7936177747023054 + s3 * -0.0040720430116193) * 1.0000000000000000 + (s1 * 1.9779985324311684 + s2 * -2.4285922420485799 + s3 * 0.4505937096174110) * 0.3963377773761749 + (s1 * 0.0259040424655478 + s2 * 0.7827717124575296 + s3 * -0.8086757549230774) * 0.2158037573099136) ^ (3 : ℕ) := by
    have hmono := pow_le_pow_left (by norm_num : (0 : ℝ) ≤ 0.744274667433064782) hP0lo 3
    have hnum : (0.412287067344396047 : ℝ) ≤ (0.744274667433064782 : ℝ) ^ (3 : ℕ) := by norm_num
    linarith
  have hC0hi : ((s1 * 0.2104542683093140 + s2 * 0.7936177747023054 + s3 * -0.0040720430116193) * 1.0000000000000000 + (s1 * 1.9779985324311684 + s2 * -2.4285922420485799 + s3 * 0.4505937096174110) * 0.3963377773761749 + (s1 * 0.0259040424655478 + s2 * 0.7827717124575296 + s3 * -0.8086757549230774) * 0.2158037573099136) ^ (3 : ℕ) ≤ (0.412287067344397687 : ℝ) := by
    have hmono := pow_le_pow_left hP0nn hP0hi 3
    have hnum : (0.744274667433065768 : ℝ) ^ (3 : ℕ) ≤ (0.412287067344397687 : ℝ) := by norm_num
    linarith
  have hP1lo : (0.596214376725122595 : ℝ) ≤ (s1 * 0.2104542683093140 + s2 * 0.7936177747023054 + s3 * -0.0040720430116193) * 1.0000000000000000 + (s1 * 1.9779985324311684 + s2 * -2.4285922420485799 + s3 * 0.4505937096174110) * -0.1055613458156586 + (s1 * 0.0259040424655478 + s2 * 0.7827717124575296 + s3 * -0.8086757549230774) * -0.0638541728258133 := by linarith [hu1, hu2, hv1, hv2, hw1, hw2]
  have hP1hi : ((s1 * 0.2104542683093140 + s2 * 0.7936177747023054 + s3 * -0.0040720430116193) * 1.0000000000000000 + (s1 * 1.9779985324311684 + s2 * -2.4285922420485799 + s3 * 0.4505937096174110) * -0.1055613458156586 + (s1 * 0.0259040424655478 + s2 * 0.7827717124575296 + s3 * -0.8086757549230774) * -0.0638541728258133) ≤ (0.596214376725123083 : ℝ) := by linarith [hu1, hu2, hv1, hv2, hw1, hw2]
  have hP1nn : (0 : ℝ) ≤ (s1 * 0.2104542683093140 + s2 * 0.7936177747023054 + s3 * -0.0040720430116193) * 1.0000000000000000 + (s1 * 1.9779985324311684 + s2 * -2.4285922420485799 + s3 * 0.4505937096174110) * -0.1055613458156586 + (s1 * 0.0259040424655478 + s2 * 0.7827717124575296 + s3 * -0.8086757549230774) * -0.0638541728258133 := by linarith [hP1lo]
  have hC1lo : (0.211937268310021566 : ℝ) ≤ ((s1 * 0.2104542683093140 + s2 * 0.7936177747023054 + s3 * -0.0040720430116193) * 1.0000000000000000 + (s1 * 1.9779985324311684 + s2 * -2.4285922420485799 + s3 * 0.4505937096174110) * -0.1055613458156586 + (s1 * 0.0259040424655478 + s2 * 0.7827717124575296 + s3 * -0.8086757549230774) * -0.0638541728258133) ^ (3 : ℕ) := by
    have hmono := pow_le_pow_left (by norm_num : (0 : ℝ) ≤ 0.596214376725122595) hP1lo 3
    have hnum : (0.211937268310021566 : ℝ) ≤ (0.596214376725122595 : ℝ) ^ (3 : ℕ) := by norm_num
    linarith
  have hC1hi : ((s1 * 0.2104542683093140 + s2 * 0.7936177747023054 + s3 * -0.0040720430116193) * 1.0000000000000000 + (s1 * 1.9779985324311684 + s2 * -2.4285922420485799 + s3 * 0.4505937096174110) * -0.1055613458156586 + (s1 * 0.0259040424655478 + s2 * 0.7827717124575296 + s3 * -0.8086757549230774) * -0.0638541728258133) ^ (3 : ℕ) ≤ (0.211937268310022087 : ℝ) := by
    have hmono := pow_le_pow_left hP1nn hP1hi 3
    have hnum : (0.596214376725123083 : ℝ) ^ (3 : ℕ) ≤ (0.211937268310022087 : ℝ) := by norm_num
    linarith
  have hP2lo : (0.445328676859327011 : ℝ) ≤ (s1 * 0.2104542683093140 + s2 * 0.7936177747023054 + s3 * -0.0040720430116193) * 1.0000000000000000 + (s1 * 1.9779985324311684 + s2 * -2.4285922420485799 + s3 * 0.4505937096174110) * -0.0894841775298119 + (s1 * 0.0259040424655478 + s2 * 0.7827717124575296 + s3 * -0.8086757549230774) * -1.2914855480194092 := by linarith [hu1, hu2, hv1, hv2, hw1, hw2]
  have hP2hi : ((s1 * 0.2104542683093140 + s2 * 0.7936177747023054 + s3 * -0.0040720430116193) * 1.0000000000000000 + (s1 * 1.9779985324311684 + s2 * -2.4285922420485799 + s3 * 0.4505937096174110) * -0.0894841775298119 + (s1 * 0.0259040424655478 + s2 * 0.7827717124575296 + s3 * -0.8086757549230774) * -1.2914855480194092) ≤ (0.445328676859328072 : ℝ) := by linarith [hu1, hu2, hv1, hv2, hw1, hw2]
  have hP2nn : (0 : ℝ) ≤ (s1 * 0.2104542683093140 + s2 * 0.7936177747023054 + s3 * -0.0040720430116193) * 1.0000000000000000 + (s1 * 1.9779985324311684 + s2 * -2.4285922420485799 + s3 * 0.4505937096174110) * -0.0894841775298119 + (s1 * 0.0259040424655478 + s2 * 0.7827717124575296 + s3 * -0.8086757549230774) * -1.2914855480194092 := by linarith [hP2lo]
  have hC2lo : (0.088316527958729094 : ℝ) ≤ ((s1 * 0.2104542683093140 + s2 * 0.7936177747023054 + s3 * -0.0040720430116193) * 1.0000000000000000 + (s1 * 1.9779985324311684 + s2 * -2.4285922420485799 + s3 * 0.4505937096174110) * -0.0894841775298119 + (s1 * 0.0259040424655478 + s2 * 0.7827717124575296 + s3 * -0.8086757549230774) * -1.2914855480194092) ^ (3 : ℕ) := by
    have hmono := pow_le_pow_left (by norm_num : (0 : ℝ) ≤ 0.445328676859327011) hP2lo 3
    have hnum : (0.088316527958729094 : ℝ) ≤ (0.445328676859327011 : ℝ) ^ (3 : ℕ) := by norm_num
    linarith
  have hC2hi : ((s1 * 0.2104542683093140 + s2 * 0.7936177747023054 + s3 * -0.0040720430116193) * 1.0000000000000000 + (s1 * 1.9779985324311684 + s2 * -2.4285922420485799 + s3 * 0.4505937096174110) * -0.0894841775298119 + (s1 * 0.0259040424655478 + s2 * 0.7827717124575296 + s3 * -0.8086757549230774) * -1.2914855480194092) ^ (3 : ℕ) ≤ (0.088316527958729726 : ℝ) := by
    have hmono := pow_le_pow_left hP2nn hP2hi 3
    have hnum : (0.445328676859328072 : ℝ) ^ (3 : ℕ) ≤ (0.088316527958729726 : ℝ) := by norm_num
    linarith
  set c0 : ℝ := ((s1 * 0.2104542683093140 + s2 * 0.7936177747023054 + s3 * -0.0040720430116193) * 1.0000000000000000 + (s1 * 1.9779985324311684 + s2 * -2.4285922420485799 + s3 * 0.4505937096174110) * 0.3963377773761749 + (s1 * 0.0259040424655478 + s2 * 0.7827717124575296 + s3 * -0.8086757549230774) * 0.2158037573099136) ^ (3 : ℕ) with hc0
  set c1 : ℝ := ((s1 * 0.2104542683093140 + s2 * 0.7936177747023054 + s3 * -0.0040720430116193) * 1.0000000000000000 + (s1 * 1.9779985324311684 + s2 * -2.4285922420485799 + s3 * 0.4505937096174110) * -0.1055613458156586 + (s1 * 0.0259040424655478 + s2 * 0.7827717124575296 + s3 * -0.8086757549230774) * -0.0638541728258133) ^ (3 : ℕ) with hc1
  set c2 : ℝ := ((s1 * 0.2104542683093140 + s2 * 0.7936177747023054 + s3 * -0.0040720430116193) * 1.0000000000000000 + (s1 * 1.9779985324311684 + s2 * -2.4285922420485799 + s3 * 0.4505937096174110) * -0.0894841775298119 + (s1 * 0.0259040424655478 + s2 * 0.7827717124575296 + s3 * -0.8086757549230774) * -1.2914855480194092) ^ (3 : ℕ) with hc2
  clear_value c0 c1 c2
  have hRlo : (0.99999981496576 : ℝ) ≤ 3.2404542 * (c0 * 1.2268798758459243 + c1 * -0.5578149944602171 + c2 * 0.2813910456659647) - 1.5371385 * (c0 * -0.0405757452148008 + c1 * 1.1122868032803170 + c2 * -0.0717110580655164) - 0.4985314 * (c0 * -0.0763729366746601 + c1 * -0.4214933324022432 + c2 * 1.5869240198367816) := by linarith [hC0lo, hC0hi, hC1lo, hC1hi, hC2lo, hC2hi]
  have hRhi : (3.2404542 * (c0 * 1.2268798758459243 + c1 * -0.5578149944602171 + c2 * 0.2813910456659647) - 1.5371385 * (c0 * -0.0405757452148008 + c1 * 1.1122868032803170 + c2 * -0.0717110580655164) - 0.4985314 * (c0 * -0.0763729366746601 + c1 * -0.4214933324022432 + c2 * 1.5869240198367816)) ≤ (0.99999981496578 : ℝ) := by linarith [hC0lo, hC0hi, hC1lo, hC1hi, hC2lo, hC2hi]
  have hGlo : (0.00000013181331 : ℝ) ≤ -0.9692660 * (c0 * 1.2268798758459243 + c1 * -0.5578149944602171 + c2 * 0.2813910456659647) + 1.8760108 * (c0 * -0.0405757452148008 + c1 * 1.1122868032803170 + c2 * -0.0717110580655164) + 0.0415560 * (c0 * -0.0763729366746601 + c1 * -0.4214933324022432 + c2 * 1.5869240198367816) := by linarith [hC0lo, hC0hi, hC1lo, hC1hi, hC2lo, hC2hi]
  have hGhi : (-0.9692660 * (c0 * 1.2268798758459243 + c1 * -0.5578149944602171 + c2 * 0.2813910456659647) + 1.8760108 * (c0 * -0.0405757452148008 + c1 * 1.1122868032803170 + c2 * -0.0717110580655164) + 0.0415560 * (c0 * -0.0763729366746601 + c1 * -0.4214933324022432 + c2 * 1.5869240198367816)) ≤ (0.00000013181333 : ℝ) := by linarith [hC0lo, hC0hi, hC1lo, hC1hi, hC2lo, hC2hi]
  have hBlo : (-0.00000001708608 : ℝ) ≤ 0.0556434 * (c0 * 1.2268798758459243 + c1 * -0.5578149944602171 + c2 * 0.2813910456659647) - 0.2040259 * (c0 * -0.0405757452148008 + c1 * 1.1122868032803170 + c2 * -0.0717110580655164) + 1.0572252 * (c0 * -0.0763729366746601 + c1 * -0.4214933324022432 + c2 * 1.5869240198367816) := by linarith [hC0lo, hC0hi, hC1lo, hC1hi, hC2lo, hC2hi]
  have hBhi : (0.0556434 * (c0 * 1.2268798758459243 + c1 * -0.5578149944602171 + c2 * 0.2813910456659647) - 0.2040259 * (c0 * -0.0405757452148008 + c1 * 1.1122868032803170 + c2 * -0.0717110580655164) + 1.0572252 * (c0 * -0.0763729366746601 + c1 * -0.4214933324022432 + c2 * 1.5869240198367816)) ≤ (-0.00000001708606 : ℝ) := by linarith [hC0lo, hC0hi, hC1lo, hC1hi, hC2lo, hC2hi]
  simp only [Prod.mk.injEq]
  refine ⟨?_, ?_, ?_, trivial⟩
  · rw [linear_to_srgb, if_neg (by linarith : ¬ (3.2404542 * (c0 * 1.2268798758459243 + c1 * -0.5578149944602171 + c2 * 0.2813910456659647) - 1.5371385 * (c0 * -0.0405757452148008 + c1 * 1.1122868032803170 + c2 * -0.0717110580655164) - 0.4985314 * (c0 * -0.0763729366746601 + c1 * -0.4214933324022432 + c2 * 1.5869240198367816) ≤ 0.0031308))]
    have hq1 : (0.999999922901 : ℝ) ≤ (3.2404542 * (c0 * 1.2268798758459243 + c1 * -0.5578149944602171 + c2 * 0.2813910456659647) - 1.5371385 * (c0 * -0.0405757452148008 + c1 * 1.1122868032803170 + c2 * -0.0717110580655164) - 0.4985314 * (c0 * -0.0763729366746601 + c1 * -0.4214933324022432 + c2 * 1.5869240198367816)) ^ ((1 : ℝ) / 2.4) := by
      apply le_rpow_five_twelfths (by norm_num) (by linarith)
      calc (0.999999922901 : ℝ) ^ (12 : ℕ) ≤ (0.99999981496576 : ℝ) ^ (5 : ℕ) := by norm_num
        _ ≤ (3.2404542 * (c0 * 1.2268798758459243 + c1 * -0.5578149944602171 + c2 * 0.2813910456659647) - 1.5371385 * (c0 * -0.0405757452148008 + c1 * 1.1122868032803170 + c2 * -0.0717110580655164) - 0.4985314 * (c0 * -0.0763729366746601 + c1 * -0.4214933324022432 + c2 * 1.5869240198367816)) ^ (5 : ℕ) := pow_le_pow_left (by norm_num) hRlo 5
    have hq2 : (3.2404542 * (c0 * 1.2268798758459243 + c1 * -0.5578149944602171 + c2 * 0.2813910456659647) - 1.5371385 * (c0 * -0.0405757452148008 + c1 * 1.1122868032803170 + c2 * -0.0717110580655164) - 0.4985314 * (c0 * -0.0763729366746601 + c1 * -0.4214933324022432 + c2 * 1.5869240198367816)) ^ ((1 : ℝ) / 2.4) ≤ (0.999999922904 : ℝ) := by
      apply rpow_five_twelfths_le (by linarith) (by norm_num)
      calc (3.2404542 * (c0 * 1.2268798758459243 + c1 * -0.5578149944602171 + c2 * 0.2813910456659647) - 1.5371385 * (c0 * -0.0405757452148008 + c1 * 1.1122868032803170 + c2 * -0.0717110580655164) - 0.4985314 * (c0 * -0.0763729366746601 + c1 * -0.4214933324022432 + c2 * 1.5869240198367816)) ^ (5 : ℕ) ≤ (0.99999981496578 : ℝ) ^ (5 : ℕ) := pow_le_pow_left (by linarith) hRhi 5
        _ ≤ (0.999999922904 : ℝ) ^ (12 : ℕ) := by norm_num
    apply roundU8R_eq (le_refl 255)
    · linarith [hq1]
    · push_cast
      linarith [hq1]
    · push_cast
      linarith [hq2]
  · rw [linear_to_srgb, if_pos (by linarith [hC0lo, hC0hi, hC1lo, hC1hi, hC2lo, hC2hi] : (-0.9692660 * (c0 * 1.2268798758459243 + c1 * -0.5578149944602171 + c2 * 0.2813910456659647) + 1.8760108 * (c0 * -0.0405757452148008 + c1 * 1.1122868032803170 + c2 * -0.0717110580655164) + 0.0415560 * (c0 * -0.0763729366746601 + c1 * -0.4214933324022432 + c2 * 1.5869240198367816)) ≤ 0.0031308)]
    apply roundU8R_zero_small
    · linarith [hGlo]
    · linarith [hGhi]
  · rw [linear_to_srgb, if_pos (by linarith [hC0lo, hC0hi, hC1lo, hC1hi, hC2lo, hC2hi] : (0.0556434 * (c0 * 1.2268798758459243 + c1 * -0.5578149944602171 + c2 * 0.2813910456659647) - 0.2040259 * (c0 * -0.0405757452148008 + c1 * 1.1122868032803170 + c2 * -0.0717110580655164) + 1.0572252 * (c0 * -0.0763729366746601 + c1 * -0.4214933324022432 + c2 * 1.5869240198367816)) ≤ 0.0031308)]
    apply roundU8R_zero_small
    · linarith [hBlo]
    · linarith [hBhi]

theorem input_to_rgb_hsl_red :
    input_to_rgb (r"hsl(0,100%,50%)") =
      { r := 255, g := 0, b := 0, a := 1, ok := true, format := ColorFormat.HSL } := by
  have hso : string_input_to_object (r"hsl(0,100%,50%)") =
      some (ColorInput.HSL ((0 : ℚ) / 360) ((100 : ℚ) / 100) ((50 : ℚ) / 100)) := by rfl
  have hrgb : hsl_to_rgb ((0 : ℚ) / 360) ((100 : ℚ) / 100) ((50 : ℚ) / 100) =
      { r := 255, g := 0, b := 0, a := 1 } := by
    rw [show ((0 : ℚ) / 360) = 0 by norm_num, show ((100 : ℚ) / 100) = 1 by norm_num,
      show ((50 : ℚ) / 100) = 1 / 2 by norm_num, hsl_to_rgb]
    norm_num [hue_to_rgb, castU8]
  simp only [input_to_rgb, hso, hrgb]
  norm_num [RGBInput.default, bound_alpha]

theorem new_to_rgb_of_parse {s : String} {F : ColorFormat}
    (hp : input_to_rgb s = { r := 255, g := 0, b := 0, a := 1, ok := true, format := F })
    (hne : s.isEmpty = false) :
    (BigColor.new s).is_valid = true ∧
    (BigColor.new s).to_rgb = { r := 255, g := 0, b := 0, a := 1 } := by
  have hnew : BigColor.new s =
      { oklch := rgb_to_oklch 255 0 0 1
        original_input := s
        format := F
        ok := true } := by
    rw [BigColor.new, if_neg (by simp [hne])]
    simp [hp]
  constructor
  · rw [hnew]
    rfl
  · rw [hnew]
    simp only [BigColor.to_rgb, red_roundtrip]

/-- C2: parsing each of `"#ff0000"`, `"rgb(255,0,0)"`, `"hsl(0,100%,50%)"` and
`"red"` succeeds, and each resulting canonical color's `to_rgb` is exactly
`(255, 0, 0)` with alpha exactly 1. -/
theorem parser_equivalence_red :
    ((BigColor.new (r"#ff0000")).is_valid = true ∧
      (BigColor.new (r"#ff0000")).to_rgb = { r := 255, g := 0, b := 0, a := 1 }) ∧
    ((BigColor.new (r"rgb(255,0,0)")).is_valid = true ∧
      (BigColor.new (r"rgb(255,0,0)")).to_rgb = { r := 255, g := 0, b := 0, a := 1 }) ∧
    ((BigColor.new (r"hsl(0,100%,50%)")).is_valid = true ∧
      (BigColor.new (r"hsl(0,100%,50%)")).to_rgb = { r := 255, g := 0, b := 0, a := 1 }) ∧
    ((BigColor.new (r"red")).is_valid = true ∧
      (BigColor.new (r"red")).to_rgb = { r := 255, g := 0, b := 0, a := 1 }) := by
  have hp1 : input_to_rgb (r"#ff0000") =
      { r := 255, g := 0, b := 0, a := 1, ok := true, format := ColorFormat.HEX } := by decide
  have hp2 : input_to_rgb (r"rgb(255,0,0)") =
      { r := 255, g := 0, b := 0, a := 1, ok := true, format := ColorFormat.RGB } := by decide
  have hp4 : input_to_rgb (r"red") =
      { r := 255, g := 0, b := 0, a := 1, ok := true, format := ColorFormat.NAME } := by decide
  exact ⟨new_to_rgb_of_parse hp1 (by rfl), new_to_rgb_of_parse hp2 (by rfl),
    new_to_rgb_of_parse input_to_rgb_hsl_red (by rfl), new_to_rgb_of_parse hp4 (by rfl)⟩

end Bigcolor
